import Mathlib

/-!
# Verification of the LEGEND genetic-algorithm optimization worker

A shallow embedding, in Lean 4, of the core logic of the repository:

* `shared-logic.js` — roulette-wheel geometry (`getNeighbours`,
  `calculatePocketDistance`, `getHitZone`), per-record outcome evaluation
  (`evaluateCalculationStatus`), decay-weighted statistics
  (`calculateTrendStats`, `getBoardStateStats`, `runNeighbourAnalysis`)
  and candidate scoring (`getRecommendation`).
* `optimizationWorker.js` — the genetic algorithm (parameter space,
  `createIndividual`, `crossover`, `mutate`, `selectParent`), the fitness
  replay simulator (`calculateFitness`) and the evolution loop
  (`runEvolution`).  The repository file contains two revisions of the
  worker; the first (current) revision is the one embedded here.

Modelling conventions:

* JavaScript numbers are modelled as exact rationals (`ℚ`); record ids and
  wheel positions as `ℤ`; `null` as `Option.none`.  `Infinity`, which occurs
  only as a pocket-distance sentinel, is modelled as `Option.none` on `ℕ`.
* A JavaScript `Set` together with its insertion-order iteration is modelled
  as a duplicate-free list built with `addUnique`; a plain object used as a
  string-keyed map with insertion-order iteration is modelled as an
  association list (`lookupA` / `setA` mirror property read / write).
* `Array.prototype.sort` with a numeric comparator is a stable sort; it is
  modelled by `List.insertionSort`, which is stable.
* The ambient random source (`Math.random`) is modelled as an oracle
  `rng : ℕ → ℚ` consumed at an explicitly threaded index; the shared
  `isRunning` cancellation flag is modelled as an oracle `flag : ℕ → Bool`
  read at an explicitly threaded poll index (`true` = still running).
-/

set_option maxRecDepth 100000

namespace Legend

/-! ## Small helpers -/

/-- JavaScript `Math.min` on two numbers (NaN never arises here). -/
def minQ (a b : ℚ) : ℚ := if a ≤ b then a else b

/-- JavaScript `Math.max` on two numbers. -/
def maxQ (a b : ℚ) : ℚ := if b ≤ a then a else b

/-- `parseFloat(x.toFixed(4))`: round to 4 decimal places.  (On every value
produced by the parameter grids below this is the identity.) -/
def round4 (q : ℚ) : ℚ := (round (q * 10000) : ℤ) / 10000

/-- `Math.pow(d, n)` for a natural exponent, as used for decay weights. -/
def powQ (d : ℚ) : Nat → ℚ
  | 0 => 1
  | n + 1 => powQ d n * d

/-- Pocket distances are `ℕ` with `none` playing the role of `Infinity`;
`pdLt a b` is the JavaScript comparison `a < b` under that convention. -/
def pdLt : Option Nat → Option Nat → Bool
  | some a, some b => a < b
  | some _, none => true
  | none, _ => false

/-- `Set.prototype.add` under insertion-order iteration: append the element
unless it is already present. -/
def addUnique (l : List Int) (a : Int) : List Int :=
  if a ∈ l then l else l ++ [a]

/-- Property read `obj[k]` on an object modelled as an association list. -/
def lookupA {κ α : Type} [BEq κ] (l : List (κ × α)) (k : κ) : Option α :=
  (l.find? (fun p => p.1 == k)).map (fun p => p.2)

/-- Property write `obj[k] = v`: an existing key keeps its position, a new
key is appended (JavaScript insertion-order semantics). -/
def setA {κ α : Type} [BEq κ] (l : List (κ × α)) (k : κ) (v : α) : List (κ × α) :=
  match l with
  | [] => [(k, v)]
  | (k', v') :: rest => if k' == k then (k', v) :: rest else (k', v') :: setA rest k v

/-- `obj[k].success += w`, guarded by `if (obj[k])`: only existing keys are
updated. -/
def bumpA (l : List (Int × ℚ)) (k : Int) (w : ℚ) : List (Int × ℚ) :=
  l.map (fun p => if p.1 == k then (p.1, p.2 + w) else p)

/-- Array indexing with a default; every use below is in range, where it
agrees with JavaScript indexing. -/
def listGetD {α : Type} (l : List α) (i : Nat) (d : α) : α := l.getD i d

/-! ## `shared-logic.js`: wheel geometry -/

/-- `getNeighbours(number, count, rouletteWheel)`: the `count` positions on
each side of `number` on the wheel, as a deduplicated insertion-order list;
`[]` when `number` is not on the wheel. -/
def getNeighbours (number : Int) (count : Nat) (rouletteWheel : List Int) : List Int :=
  match List.findIdx? (fun x => x == number) rouletteWheel with
  | none => []
  | some index =>
    let wheelSize := rouletteWheel.length
    (List.range count).foldl (fun acc i0 =>
      let i : Int := (i0 : Int) + 1
      let a1 := listGetD rouletteWheel (((index - i + wheelSize) % (wheelSize : Int)).toNat) 0
      let a2 := listGetD rouletteWheel (((index + i) % (wheelSize : Int)).toNat) 0
      addUnique (addUnique acc a1) a2) []

/-- `calculatePocketDistance(num1, num2, rouletteWheel)`: circular distance
between two wheel positions; `none` (for `Infinity`) when either number is
not on the wheel. -/
def calculatePocketDistance (num1 num2 : Int) (rouletteWheel : List Int) : Option Nat :=
  match List.findIdx? (fun x => x == num1) rouletteWheel,
        List.findIdx? (fun x => x == num2) rouletteWheel with
  | some index1, some index2 =>
    let directDistance := Int.natAbs ((index1 : Int) - (index2 : Int))
    let wrapAroundDistance := rouletteWheel.length - directDistance
    some (min directDistance wrapAroundDistance)
  | _, _ => none

/-- The neighbour spread around the base position:
`(numTerminals === 1) ? 3 : (numTerminals >= 2) ? 1 : 0`. -/
def baseNeighbourCount (numTerminals : Nat) : Nat :=
  if numTerminals = 1 then 3 else if 2 ≤ numTerminals then 1 else 0

/-- The neighbour spread around each terminal, including the "dynamic"
collapse to 0 when the known winning number already equals the base or one
of the terminals. -/
def terminalNeighbourCount (useDynamic : Bool) (winningNumber : Option Int)
    (baseNumber : Int) (terminals : List Int) : Nat :=
  let numTerminals := terminals.length
  let defaultCount : Nat :=
    if numTerminals = 1 ∨ numTerminals = 2 then 3 else if 2 < numTerminals then 1 else 0
  match useDynamic, winningNumber with
  | true, some w => if baseNumber = w ∨ w ∈ terminals then 0 else defaultCount
  | _, _ => defaultCount

/-- One iteration of the `terminals.forEach` loop in `getHitZone`: add the
terminal, then (when the spread is positive) its neighbours. -/
def termStep (terminalNbrCount : Nat) (rouletteWheel : List Int)
    (zone : List Int) (t : Int) : List Int :=
  let z1 := addUnique zone t
  if 0 < terminalNbrCount then
    (getNeighbours t terminalNbrCount rouletteWheel).foldl addUnique z1
  else z1

/-- `getHitZone(baseNumber, terminals, winningNumber, useDynamic..., terminalMapping,
rouletteWheel)`.  The `terminalMapping` parameter is unused, as in the source. -/
def getHitZone (baseNumber : Int) (terminals : List Int) (winningNumber : Option Int)
    (useDynamic : Bool) (_terminalMapping : Int → List Int)
    (rouletteWheel : List Int) : List Int :=
  if baseNumber < 0 ∨ 36 < baseNumber then [] else
  let hitZone0 : List Int := [baseNumber]
  let numTerminals := terminals.length
  let baseCnt := baseNeighbourCount numTerminals
  let hitZone1 :=
    if 0 < baseCnt then
      (getNeighbours baseNumber baseCnt rouletteWheel).foldl addUnique hitZone0
    else hitZone0
  let termCnt := terminalNeighbourCount useDynamic winningNumber baseNumber terminals
  if 0 < terminals.length then terminals.foldl (termStep termCnt rouletteWheel) hitZone1
  else hitZone1

/-! ## Records and prediction types -/

/-- Success status of a history record. -/
inductive RecStatus : Type
  | success
  | fail
  | pending
deriving DecidableEq

/-- A prediction type as supplied to the worker: an id together with its
opaque pure `calculateBase` map (label and colours are display-only and
omitted). -/
structure PredType : Type where
  id : String
  calculateBase : Int → Int → Int

/-- The per-candidate score details built by `getRecommendation` (the
display-only fields `proximityBoostApplied` / `weightedZoneBoostApplied`,
which the source declares but never sets, are omitted). -/
structure CandDetails : Type where
  hitRate : ℚ
  avgTrend : ℚ
  currentStreak : Nat
  predictiveDistance : Option Nat
  finalScore : ℚ
  primaryDrivingFactor : String
  individualScores : List (String × ℚ)

/-- A scored candidate `{ type, score, details }`. -/
structure Candidate : Type where
  type : PredType
  score : ℚ
  details : CandDetails

/-- A raw history record handed to the worker (`id`, `num1`, `num2`,
`difference`, nullable `winningNumber`). -/
structure HistoryRecord : Type where
  id : Int
  num1 : Int
  num2 : Int
  difference : Int
  winningNumber : Option Int
deriving DecidableEq

/-- A simulated history item: a raw record plus the replay-computed fields
written by the worker and by `evaluateCalculationStatus`. -/
structure SimRecord : Type where
  id : Int
  num1 : Int
  num2 : Int
  difference : Int
  winningNumber : Option Int
  hitTypes : List String
  typeSuccessStatus : List (String × Bool)
  status : RecStatus
  recommendedGroupId : Option String
  recommendationDetails : Option CandDetails
  pocketDistance : Option Nat
  recommendedGroupPocketDistance : Option Nat

/-- The strategy configuration rebuilt from an individual
(`SIM_STRATEGY_CONFIG`); only `decayFactor` is read by the helpers. -/
structure StrategyConfig : Type where
  learningRate_success : ℚ
  learningRate_failure : ℚ
  maxWeight : ℚ
  minWeight : ℚ
  decayFactor : ℚ
  patternMinAttempts : ℚ
  patternSuccessThreshold : ℚ
  triggerMinAttempts : ℚ
  triggerSuccessThreshold : ℚ

/-- `SIM_ADAPTIVE_LEARNING_RATES` rebuilt from an individual. -/
structure AdaptiveRates : Type where
  SUCCESS : ℚ
  FAILURE : ℚ
  MIN_INFLUENCE : ℚ
  MAX_INFLUENCE : ℚ

/-- The static data shared by all helper calls in the worker: the prediction
types (`allPredictionTypes`, also used as the active types), the terminal
mapping (`terminalMapping?.[n] || []` modelled as a total function) and the
wheel. -/
structure SimEnv : Type where
  predictionTypes : List PredType
  terminalMapping : Int → List Int
  rouletteWheel : List Int

/-- `.sort((a, b) => a.id - b.id)` on raw records (stable, ascending). -/
def sortHistory (l : List HistoryRecord) : List HistoryRecord :=
  List.insertionSort (fun a b => a.id ≤ b.id) l

/-- `.sort((a, b) => a.id - b.id)` on simulated records. -/
def sortSim (l : List SimRecord) : List SimRecord :=
  List.insertionSort (fun a b => a.id ≤ b.id) l

/-! ## `evaluateCalculationStatus` -/

/-- The body of the `activePredictionTypes.forEach` loop of
`evaluateCalculationStatus`: record hit/miss for one type and update the
running minimum pocket distance. -/
def evalStatusStep (winningNumber : Int) (useDynamic : Bool)
    (terminalMapping : Int → List Int) (rouletteWheel : List Int)
    (acc : SimRecord × Option Nat) (type : PredType) : SimRecord × Option Nat :=
  let it := acc.1
  let minD := acc.2
  let baseNum := type.calculateBase it.num1 it.num2
  if baseNum < 0 ∨ 36 < baseNum then
    ({ it with typeSuccessStatus := setA it.typeSuccessStatus type.id false }, minD)
  else
    let terminals := terminalMapping baseNum
    let hitZone := getHitZone baseNum terminals (some winningNumber) useDynamic
      terminalMapping rouletteWheel
    if winningNumber ∈ hitZone then
      let it := { it with
        hitTypes := it.hitTypes ++ [type.id],
        typeSuccessStatus := setA it.typeSuccessStatus type.id true }
      let currentMinDist := hitZone.foldl (fun cm zoneNum =>
        let dist := calculatePocketDistance zoneNum winningNumber rouletteWheel
        if pdLt dist cm then dist else cm) none
      (it, if pdLt currentMinDist minD then currentMinDist else minD)
    else
      ({ it with typeSuccessStatus := setA it.typeSuccessStatus type.id false }, minD)

/-- `evaluateCalculationStatus(historyItem, winningNumber, useDynamic...,
activePredictionTypes, terminalMapping, rouletteWheel)`: fills in
`winningNumber`, `hitTypes`, `typeSuccessStatus`, `status`, `pocketDistance`
and `recommendedGroupPocketDistance`. -/
def evaluateCalculationStatus (historyItem : SimRecord) (winningNumber : Int)
    (useDynamic : Bool) (activePredictionTypes : List PredType)
    (terminalMapping : Int → List Int) (rouletteWheel : List Int) : SimRecord :=
  let start : SimRecord := { historyItem with
    winningNumber := some winningNumber, hitTypes := [], typeSuccessStatus := [] }
  let r := activePredictionTypes.foldl
    (evalStatusStep winningNumber useDynamic terminalMapping rouletteWheel) (start, none)
  let item := r.1
  let status := if 0 < item.hitTypes.length then RecStatus.success else RecStatus.fail
  let pocketDistance := r.2
  let rgpd :=
    match item.recommendedGroupId with
    | some g => if g ∈ item.hitTypes then pocketDistance else none
    | none => none
  { item with
    status := status,
    pocketDistance := pocketDistance,
    recommendedGroupPocketDistance := rgpd }

/-! ## Decay-weighted statistics -/

/-- The trend statistics returned by `calculateTrendStats` (the
`totalOccurrences` / `successfulOccurrences` accumulators of the source are
computed but not returned, hence omitted). -/
structure TrendStats : Type where
  averages : List (String × ℚ)
  currentStreaks : List (String × Nat)
  lastSuccessState : List String

/-- The per-type streak fold of `calculateTrendStats`: closed streak lengths
plus the running streak, skipping `pending` items.  (An item counts toward
the streak when its `typeSuccessStatus` holds `true` for the type.) -/
def streaksFor (sorted : List SimRecord) (tid : String) : List Nat × Nat :=
  sorted.foldl (fun acc item =>
    if item.status = RecStatus.pending then acc
    else if lookupA item.typeSuccessStatus tid = some true then (acc.1, acc.2 + 1)
    else if 0 < acc.2 then (acc.1 ++ [acc.2], 0) else (acc.1, 0)) ([], 0)

/-- `calculateTrendStats(currentHistory, config, activeTypesArr)`. -/
def calculateTrendStats (currentHistory : List SimRecord) (_cfg : StrategyConfig)
    (activeTypesArr : List PredType) : TrendStats :=
  let sorted := sortSim currentHistory
  let averages := activeTypesArr.map (fun type =>
    let s := streaksFor sorted type.id
    let allStreaks := s.1 ++ (if 0 < s.2 then [s.2] else [])
    (type.id,
      if 0 < allStreaks.length then
        ((allStreaks.foldl (· + ·) 0 : Nat) : ℚ) / (allStreaks.length : ℚ)
      else 0))
  let currentStreaks := activeTypesArr.map (fun type => (type.id, (streaksFor sorted type.id).2))
  let lastSuccessState := sorted.foldl (fun acc item =>
    if item.status = RecStatus.pending then acc
    else if item.status = RecStatus.success then item.hitTypes else acc) []
  { averages := averages, currentStreaks := currentStreaks, lastSuccessState := lastSuccessState }

/-- Per-type decay-weighted success/attempt totals. -/
structure BoardStat : Type where
  success : ℚ
  total : ℚ

/-- `getBoardStateStats(simulatedHistory, config, activePredictionTypes)`:
record `i` of `n` contributes weight `decayFactor^(n-1-i)`. -/
def getBoardStateStats (simulatedHistory : List SimRecord) (cfg : StrategyConfig)
    (activePredictionTypes : List PredType) : List (String × BoardStat) :=
  activePredictionTypes.map (fun type =>
    (type.id, simulatedHistory.enum.foldl (fun st p =>
      let weight := powQ cfg.decayFactor (simulatedHistory.length - 1 - p.1)
      let item := p.2
      let st := if (lookupA item.typeSuccessStatus type.id).isSome then
          { st with total := st.total + weight } else st
      -- the hitTypes forEach adds the weight once per occurrence of the id
      if item.status = RecStatus.success then
        { st with success := st.success + weight * ((item.hitTypes.count type.id : ℕ) : ℚ) }
      else st)
      { success := 0, total := 0 }))

/-- `runNeighbourAnalysis(simulatedHistory, config, useDynamic...,
allPredictionTypes, terminalMapping, rouletteWheel)`: decay-weighted count,
per wheel position 0..36, of winning hit zones covering the position. -/
def runNeighbourAnalysis (simulatedHistory : List SimRecord) (cfg : StrategyConfig)
    (useDynamic : Bool) (allPredictionTypes : List PredType)
    (terminalMapping : Int → List Int) (rouletteWheel : List Int) : List (Int × ℚ) :=
  let seed : List (Int × ℚ) := (List.range 37).map (fun i => ((i : Int), (0 : ℚ)))
  simulatedHistory.enum.foldl (fun analysis p =>
    let item := p.2
    if item.status ≠ RecStatus.success then analysis else
    let weight := powQ cfg.decayFactor (simulatedHistory.length - 1 - p.1)
    item.hitTypes.foldl (fun analysis typeId =>
      match allPredictionTypes.find? (fun t => t.id == typeId) with
      | none => analysis
      | some type =>
        let baseNum := type.calculateBase item.num1 item.num2
        if baseNum < 0 ∨ 36 < baseNum then analysis else
        let hitZone := getHitZone baseNum (terminalMapping baseNum) item.winningNumber
          useDynamic terminalMapping rouletteWheel
        hitZone.foldl (fun analysis num => bumpA analysis num weight) analysis) analysis) seed

/-! ## `getRecommendation` -/

/-- The context object destructured at the top of `getRecommendation`
(fields the body never reads, such as `diff` and the strategy config, are
carried for parity with the source). -/
structure RecContext : Type where
  trendStats : TrendStats
  boardStats : List (String × BoardStat)
  neighbourScores : List (Int × ℚ)
  diff : Int
  inputNum1 : Int
  inputNum2 : Int
  isForWeightUpdate : Bool
  currentAdaptiveInfluences : List (String × ℚ)
  lastWinningNumber : Option Int
  useProximityBoost : Bool
  useWeightedZone : Bool
  useNeighbourFocus : Bool
  isAiReady : Bool
  useTrendConfirmation : Bool
  strategyConfig : StrategyConfig
  activePredictionTypes : List PredType
  allPredictionTypes : List PredType
  terminalMapping : Int → List Int
  rouletteWheel : List Int
  useDynamicTerminalNeighbourCount : Bool

/-- The display signal carried by the returned `html` string (the html
markup itself is display-only and not modelled).  `none` in `RecResult`
corresponds to the `isForWeightUpdate` early return, which carries no
signal at all. -/
inductive Signal : Type
  | waitForSignal
  | play
  | strongPlay
  | wait
deriving DecidableEq

/-- The value returned by `getRecommendation`. -/
structure RecResult : Type where
  signal : Option Signal
  bestCandidate : Option Candidate
  details : Option CandDetails

/-- The body of the `activePredictionTypes.map` in `getRecommendation`:
score one type, or `null` when its base position is out of range.  (The
accumulated `rawScore` of the source is dead code — the final score is
re-derived from the influence loop — and is omitted; scores are exact
rationals, so the `isNaN` filter never fires.) -/
def evalCandidate (ctx : RecContext) (type : PredType) : Option Candidate :=
  let baseNum := type.calculateBase ctx.inputNum1 ctx.inputNum2
  if baseNum < 0 ∨ 36 < baseNum then none else
  let terminals := ctx.terminalMapping baseNum
  let hitZone := getHitZone baseNum terminals ctx.lastWinningNumber
    ctx.useDynamicTerminalNeighbourCount ctx.terminalMapping ctx.rouletteWheel
  let hitRate : ℚ :=
    match lookupA ctx.boardStats type.id with
    | some bs => if 0 < bs.total then bs.success / bs.total * 100 else 0
    | none => 0
  let avgTrend : ℚ := (lookupA ctx.trendStats.averages type.id).getD 0
  let currentStreak : Nat := (lookupA ctx.trendStats.currentStreaks type.id).getD 0
  let rawHitRatePoints := maxQ 0 (hitRate - 40) * (1/2)
  let rawStreakPoints := minQ 15 ((currentStreak : ℚ) * 5)
  let scores1 : List (String × ℚ) :=
    [("Hit Rate", rawHitRatePoints), ("Streak", rawStreakPoints)]
  let predictiveDistance : Option Nat :=
    if ctx.useProximityBoost = true ∧ ctx.lastWinningNumber.isSome then
      hitZone.foldl (fun dmin zoneNum =>
        let dist := calculatePocketDistance zoneNum (ctx.lastWinningNumber.getD 0)
          ctx.rouletteWheel
        if pdLt dist dmin then dist else dmin) none
    else none
  let scores2 := scores1 ++
    (if ctx.useProximityBoost = true ∧ ctx.lastWinningNumber.isSome then
      match predictiveDistance with
      | some d => if d ≤ 5 then [("Proximity to Last Spin", ((5 : ℚ) - (d : ℚ)) * 2)] else []
      | none => []
    else [])
  let scores3 := scores2 ++
    (if ctx.useWeightedZone = true then
      let neighbourWeightedScore :=
        hitZone.foldl (fun s num => s + (lookupA ctx.neighbourScores num).getD 0) 0
      [("Hot Zone Weighting", minQ 10 (neighbourWeightedScore * (1/2)))]
    else [])
  let r := ctx.currentAdaptiveInfluences.foldl (fun (acc : ℚ × String × ℚ) p =>
    let influence := p.2
    let factorScore := (lookupA scores3 p.1).getD 0
    let influencedScore := factorScore * influence
    let finalScore := acc.1 + influencedScore
    if acc.2.2 < influencedScore then (finalScore, p.1, influencedScore)
    else (finalScore, acc.2.1, acc.2.2)) (0, "N/A", 0)
  some { type := type, score := r.1,
         details := { hitRate := hitRate, avgTrend := avgTrend,
                      currentStreak := currentStreak,
                      predictiveDistance := predictiveDistance,
                      finalScore := r.1, primaryDrivingFactor := r.2.1,
                      individualScores := scores3 } }

/-- `candidates.sort((a, b) => b.score - a.score)`: stable descending. -/
def sortCandidates (l : List Candidate) : List Candidate :=
  List.insertionSort (fun a b => b.score ≤ a.score) l

/-- The non-null candidates of `getRecommendation`, sorted descending by
score; `getRecommendation` reads its best candidate from the head. -/
def recCandidatesSorted (ctx : RecContext) : List Candidate :=
  sortCandidates (ctx.activePredictionTypes.filterMap (evalCandidate ctx))

/-- `getRecommendation(context)`. -/
def getRecommendation (ctx : RecContext) : RecResult :=
  match (recCandidatesSorted ctx).head? with
  | none => { signal := some Signal.waitForSignal, bestCandidate := none, details := none }
  | some bestCandidate =>
    if bestCandidate.score ≤ 0 then
      { signal := some Signal.waitForSignal, bestCandidate := none, details := none }
    else if ctx.isForWeightUpdate = true then
      { signal := none, bestCandidate := some bestCandidate, details := none }
    else
      let signal0 := if 50 < bestCandidate.score then Signal.strongPlay else Signal.play
      let signal :=
        if ctx.useTrendConfirmation = true ∧ 0 < ctx.trendStats.lastSuccessState.length ∧
            bestCandidate.type.id ∉ ctx.trendStats.lastSuccessState then
          Signal.wait
        else signal0
      { signal := some signal, bestCandidate := some bestCandidate,
        details := some bestCandidate.details }

/-! ## `optimizationWorker.js`: parameter space and genetic operators -/

/-- One entry of `parameterSpace`: `{ min, max, step }`. -/
structure ParamSpec : Type where
  lo : ℚ
  hi : ℚ
  step : ℚ

def psLearningRate_success : ParamSpec := ⟨0.01, 1.0, 0.01⟩
def psLearningRate_failure : ParamSpec := ⟨0.01, 0.5, 0.01⟩
def psMaxWeight : ParamSpec := ⟨1.0, 10.0, 0.1⟩
def psMinWeight : ParamSpec := ⟨0.0, 1.0, 0.01⟩
def psDecayFactor : ParamSpec := ⟨0.7, 0.99, 0.01⟩
def psPatternMinAttempts : ParamSpec := ⟨1, 20, 1⟩
def psPatternSuccessThreshold : ParamSpec := ⟨50, 100, 1⟩
def psTriggerMinAttempts : ParamSpec := ⟨1, 20, 1⟩
def psTriggerSuccessThreshold : ParamSpec := ⟨50, 100, 1⟩
def psAdaptiveSuccessRate : ParamSpec := ⟨0.01, 0.5, 0.01⟩
def psAdaptiveFailureRate : ParamSpec := ⟨0.01, 0.5, 0.01⟩
def psMinAdaptiveInfluence : ParamSpec := ⟨0.0, 1.0, 0.01⟩
def psMaxAdaptiveInfluence : ParamSpec := ⟨1.0, 5.0, 0.1⟩

/-- `GA_CONFIG`. -/
structure GAConfig : Type where
  populationSize : Nat
  mutationRate : ℚ
  crossoverRate : ℚ
  eliteCount : Nat
  maxGenerations : Nat

def GA_CONFIG : GAConfig :=
  { populationSize := 50, mutationRate := 0.15, crossoverRate := 0.7,
    eliteCount := 4, maxGenerations := 100 }

/-- An individual: one gene per `parameterSpace` key, in object insertion
order. -/
structure Individual : Type where
  learningRate_success : ℚ
  learningRate_failure : ℚ
  maxWeight : ℚ
  minWeight : ℚ
  decayFactor : ℚ
  patternMinAttempts : ℚ
  patternSuccessThreshold : ℚ
  triggerMinAttempts : ℚ
  triggerSuccessThreshold : ℚ
  adaptiveSuccessRate : ℚ
  adaptiveFailureRate : ℚ
  minAdaptiveInfluence : ℚ
  maxAdaptiveInfluence : ℚ
deriving DecidableEq

/-- One gene draw:
`parseFloat((min + Math.floor(r * (range + 1)) * step).toFixed(4))` where
`range = (max - min) / step` and `r` is one `Math.random()` value. -/
def geneSample (spec : ParamSpec) (r : ℚ) : ℚ :=
  let range := (spec.hi - spec.lo) / spec.step
  let randomStep : Int := Int.floor (r * (range + 1))
  round4 (spec.lo + (randomStep : ℚ) * spec.step)

/-- `createIndividual()`: thirteen independent draws, consumed in key
order; returns the individual and the next random index. -/
def createIndividual (rng : Nat → ℚ) (t : Nat) : Individual × Nat :=
  ({ learningRate_success := geneSample psLearningRate_success (rng t),
     learningRate_failure := geneSample psLearningRate_failure (rng (t + 1)),
     maxWeight := geneSample psMaxWeight (rng (t + 2)),
     minWeight := geneSample psMinWeight (rng (t + 3)),
     decayFactor := geneSample psDecayFactor (rng (t + 4)),
     patternMinAttempts := geneSample psPatternMinAttempts (rng (t + 5)),
     patternSuccessThreshold := geneSample psPatternSuccessThreshold (rng (t + 6)),
     triggerMinAttempts := geneSample psTriggerMinAttempts (rng (t + 7)),
     triggerSuccessThreshold := geneSample psTriggerSuccessThreshold (rng (t + 8)),
     adaptiveSuccessRate := geneSample psAdaptiveSuccessRate (rng (t + 9)),
     adaptiveFailureRate := geneSample psAdaptiveFailureRate (rng (t + 10)),
     minAdaptiveInfluence := geneSample psMinAdaptiveInfluence (rng (t + 11)),
     maxAdaptiveInfluence := geneSample psMaxAdaptiveInfluence (rng (t + 12)) }, t + 13)

/-- One uniform-crossover coin: `Math.random() < 0.5 ? a : b`. -/
def crossPick (r : ℚ) (a b : ℚ) : ℚ := if r < 1/2 then a else b

/-- `crossover(parent1, parent2)`: one coin per gene, in key order. -/
def crossover (rng : Nat → ℚ) (t : Nat) (p1 p2 : Individual) : Individual × Nat :=
  ({ learningRate_success := crossPick (rng t) p1.learningRate_success p2.learningRate_success,
     learningRate_failure :=
       crossPick (rng (t + 1)) p1.learningRate_failure p2.learningRate_failure,
     maxWeight := crossPick (rng (t + 2)) p1.maxWeight p2.maxWeight,
     minWeight := crossPick (rng (t + 3)) p1.minWeight p2.minWeight,
     decayFactor := crossPick (rng (t + 4)) p1.decayFactor p2.decayFactor,
     patternMinAttempts := crossPick (rng (t + 5)) p1.patternMinAttempts p2.patternMinAttempts,
     patternSuccessThreshold :=
       crossPick (rng (t + 6)) p1.patternSuccessThreshold p2.patternSuccessThreshold,
     triggerMinAttempts := crossPick (rng (t + 7)) p1.triggerMinAttempts p2.triggerMinAttempts,
     triggerSuccessThreshold :=
       crossPick (rng (t + 8)) p1.triggerSuccessThreshold p2.triggerSuccessThreshold,
     adaptiveSuccessRate := crossPick (rng (t + 9)) p1.adaptiveSuccessRate p2.adaptiveSuccessRate,
     adaptiveFailureRate :=
       crossPick (rng (t + 10)) p1.adaptiveFailureRate p2.adaptiveFailureRate,
     minAdaptiveInfluence :=
       crossPick (rng (t + 11)) p1.minAdaptiveInfluence p2.minAdaptiveInfluence,
     maxAdaptiveInfluence :=
       crossPick (rng (t + 12)) p1.maxAdaptiveInfluence p2.maxAdaptiveInfluence }, t + 13)

/-- One gene of `mutate`: with probability `mutationRate` re-sample the gene
from its full domain (consuming a second draw), else keep it. -/
def mutateGene (spec : ParamSpec) (rng : Nat → ℚ) (t : Nat) (v : ℚ) : ℚ × Nat :=
  if rng t < GA_CONFIG.mutationRate then (geneSample spec (rng (t + 1)), t + 2) else (v, t + 1)

/-- `mutate(individual)`: gene-by-gene, in key order, with sequential
random-index threading. -/
def mutate (rng : Nat → ℚ) (t : Nat) (ind : Individual) : Individual × Nat :=
  let r1 := mutateGene psLearningRate_success rng t ind.learningRate_success
  let r2 := mutateGene psLearningRate_failure rng r1.2 ind.learningRate_failure
  let r3 := mutateGene psMaxWeight rng r2.2 ind.maxWeight
  let r4 := mutateGene psMinWeight rng r3.2 ind.minWeight
  let r5 := mutateGene psDecayFactor rng r4.2 ind.decayFactor
  let r6 := mutateGene psPatternMinAttempts rng r5.2 ind.patternMinAttempts
  let r7 := mutateGene psPatternSuccessThreshold rng r6.2 ind.patternSuccessThreshold
  let r8 := mutateGene psTriggerMinAttempts rng r7.2 ind.triggerMinAttempts
  let r9 := mutateGene psTriggerSuccessThreshold rng r8.2 ind.triggerSuccessThreshold
  let r10 := mutateGene psAdaptiveSuccessRate rng r9.2 ind.adaptiveSuccessRate
  let r11 := mutateGene psAdaptiveFailureRate rng r10.2 ind.adaptiveFailureRate
  let r12 := mutateGene psMinAdaptiveInfluence rng r11.2 ind.minAdaptiveInfluence
  let r13 := mutateGene psMaxAdaptiveInfluence rng r12.2 ind.maxAdaptiveInfluence
  ({ learningRate_success := r1.1, learningRate_failure := r2.1, maxWeight := r3.1,
     minWeight := r4.1, decayFactor := r5.1, patternMinAttempts := r6.1,
     patternSuccessThreshold := r7.1, triggerMinAttempts := r8.1,
     triggerSuccessThreshold := r9.1, adaptiveSuccessRate := r10.1,
     adaptiveFailureRate := r11.1, minAdaptiveInfluence := r12.1,
     maxAdaptiveInfluence := r13.1 }, r13.2)

/-- A population entry `{ individual, fitness }`. -/
structure PopEntry : Type where
  individual : Individual
  fitness : ℚ

/-- Placeholder for out-of-range population indexing; unreachable for a
random source in `[0, 1)` and a nonempty population. -/
def popDummy : PopEntry :=
  { individual :=
    { learningRate_success := 0, learningRate_failure := 0, maxWeight := 0, minWeight := 0,
      decayFactor := 0, patternMinAttempts := 0, patternSuccessThreshold := 0,
      triggerMinAttempts := 0, triggerSuccessThreshold := 0, adaptiveSuccessRate := 0,
      adaptiveFailureRate := 0, minAdaptiveInfluence := 0, maxAdaptiveInfluence := 0 },
    fitness := 0 }

/-- `selectParent(population)`: tournament of 5 uniform draws (with
replacement), keeping the highest fitness; the first draw always replaces
the initial `null`. -/
def selectParent (population : List PopEntry) (rng : Nat → ℚ) (t : Nat) : PopEntry × Nat :=
  let best := (List.range 5).foldl (fun best i =>
    let idx := (Int.floor (rng (t + i) * (population.length : ℚ))).toNat
    let randomIndividual := listGetD population idx popDummy
    match best with
    | none => some randomIndividual
    | some b => if b.fitness < randomIndividual.fitness then some randomIndividual else some b)
    none
  (best.getD popDummy, t + 5)

/-! ## Fitness replay (`calculateFitness`, first worker revision) -/

/-- `SIM_STRATEGY_CONFIG` from an individual. -/
def simStrategyConfig (ind : Individual) : StrategyConfig :=
  { learningRate_success := ind.learningRate_success,
    learningRate_failure := ind.learningRate_failure,
    maxWeight := ind.maxWeight, minWeight := ind.minWeight,
    decayFactor := ind.decayFactor,
    patternMinAttempts := ind.patternMinAttempts,
    patternSuccessThreshold := ind.patternSuccessThreshold,
    triggerMinAttempts := ind.triggerMinAttempts,
    triggerSuccessThreshold := ind.triggerSuccessThreshold }

/-- `SIM_ADAPTIVE_LEARNING_RATES` from an individual. -/
def simAdaptiveRates (ind : Individual) : AdaptiveRates :=
  { SUCCESS := ind.adaptiveSuccessRate, FAILURE := ind.adaptiveFailureRate,
    MIN_INFLUENCE := ind.minAdaptiveInfluence, MAX_INFLUENCE := ind.maxAdaptiveInfluence }

/-- The adaptive-influence update of the replay loop: a factor name absent
from the map is first inserted at `1.0`, then the influence is moved toward
`MAX_INFLUENCE` by `SUCCESS` on a win or toward `MIN_INFLUENCE` by
`FAILURE` on a loss, clamped. -/
def updateAdaptiveInfluence (rates : AdaptiveRates) (influences : List (String × ℚ))
    (primaryFactor : String) (wasSuccess : Bool) : List (String × ℚ) :=
  let infl1 :=
    if lookupA influences primaryFactor = none then setA influences primaryFactor 1
    else influences
  let cur := (lookupA infl1 primaryFactor).getD 0
  if wasSuccess then
    setA infl1 primaryFactor (minQ rates.MAX_INFLUENCE (cur + rates.SUCCESS))
  else
    setA infl1 primaryFactor (maxQ rates.MIN_INFLUENCE (cur - rates.FAILURE))

/-- The per-evaluation mutable state of `calculateFitness`. -/
structure SimState : Type where
  wins : Nat
  losses : Nat
  simulatedHistory : List SimRecord
  influences : List (String × ℚ)
  confirmedWinsLog : List Int

/-- The seed adaptive influences (`tempAdaptiveInfluences`). -/
def initAdaptiveInfluences : List (String × ℚ) :=
  [("Hit Rate", 1), ("Streak", 1), ("Proximity to Last Spin", 1),
   ("Hot Zone Weighting", 1), ("High AI Confidence", 1), ("Statistical Trends", 1)]

/-- The state at the start of each fitness evaluation. -/
def initSimState : SimState :=
  { wins := 0, losses := 0, simulatedHistory := [], influences := initAdaptiveInfluences,
    confirmedWinsLog := [] }

/-- The tail of the replay loop body, from the point where the
recommendation for the current record has been computed: evaluate the
outcome, tally the win or loss, update the adaptive influences and append
the record to the simulated history. -/
def replayOutcome (env : SimEnv) (ind : Individual) (st : SimState)
    (rawItem : HistoryRecord) (win : Int) (bestCandidate : Option Candidate) : SimState :=
    let rates := simAdaptiveRates ind
    let recommendedGroupId := bestCandidate.map (fun c => c.type.id)
    let recommendationDetails := bestCandidate.map (fun c => c.details)
    let simItem0 : SimRecord :=
      { id := rawItem.id, num1 := rawItem.num1, num2 := rawItem.num2,
        difference := rawItem.difference, winningNumber := rawItem.winningNumber,
        hitTypes := [], typeSuccessStatus := [], status := RecStatus.pending,
        recommendedGroupId := recommendedGroupId,
        recommendationDetails := recommendationDetails,
        pocketDistance := none, recommendedGroupPocketDistance := none }
    let simItem := evaluateCalculationStatus simItem0 win true
      env.predictionTypes env.terminalMapping env.rouletteWheel
    let wins :=
      match simItem.recommendedGroupId with
      | some g => if g ∈ simItem.hitTypes then st.wins + 1 else st.wins
      | none => st.wins
    let losses :=
      match simItem.recommendedGroupId with
      | some g => if g ∈ simItem.hitTypes then st.losses else st.losses + 1
      | none => st.losses
    let influences :=
      match simItem.recommendedGroupId, simItem.recommendationDetails with
      | some g, some d =>
        if d.primaryDrivingFactor ≠ "" then
          updateAdaptiveInfluence rates st.influences d.primaryDrivingFactor
            (decide (g ∈ simItem.hitTypes))
        else st.influences
      | _, _ => st.influences
    let simulatedHistory := st.simulatedHistory ++ [simItem]
    let confirmedWinsLog :=
      if simItem.winningNumber.isSome then st.confirmedWinsLog ++ [win]
      else st.confirmedWinsLog
    { wins := wins, losses := losses, simulatedHistory := simulatedHistory,
      influences := influences, confirmedWinsLog := confirmedWinsLog }

/-- The body of the replay loop of `calculateFitness` for one raw record:
unresolved records are skipped; otherwise the statistics over the replayed
prefix feed `getRecommendation`, whose best candidate drives the outcome
tail `replayOutcome`. -/
def replayStep (env : SimEnv) (ind : Individual) (st : SimState)
    (rawItem : HistoryRecord) : SimState :=
  match rawItem.winningNumber with
  | none => st
  | some win =>
    let cfg := simStrategyConfig ind
    let historyForCalc := st.simulatedHistory
    let trendStats := calculateTrendStats historyForCalc cfg env.predictionTypes
    let boardStats := getBoardStateStats historyForCalc cfg env.predictionTypes
    let neighbourScores := runNeighbourAnalysis historyForCalc cfg true
      env.predictionTypes env.terminalMapping env.rouletteWheel
    let recommendation := getRecommendation
      { trendStats := trendStats, boardStats := boardStats,
        neighbourScores := neighbourScores,
        diff := rawItem.difference, inputNum1 := rawItem.num1, inputNum2 := rawItem.num2,
        isForWeightUpdate := false,
        currentAdaptiveInfluences := st.influences,
        lastWinningNumber := st.confirmedWinsLog.getLast?,
        useProximityBoost := true, useWeightedZone := true, useNeighbourFocus := true,
        isAiReady := false, useTrendConfirmation := true,
        strategyConfig := cfg,
        activePredictionTypes := env.predictionTypes,
        allPredictionTypes := env.predictionTypes,
        terminalMapping := env.terminalMapping, rouletteWheel := env.rouletteWheel,
        useDynamicTerminalNeighbourCount := true }
    replayOutcome env ind st rawItem win recommendation.bestCandidate

/-- The final ratio of `calculateFitness`:
`losses === 0 ? (wins > 0 ? wins * 10 : 0) : wins / losses`. -/
def fitnessOfCounts (wins losses : Nat) : ℚ :=
  if losses = 0 then (if 0 < wins then (wins : ℚ) * 10 else 0)
  else (wins : ℚ) / (losses : ℚ)

/-- The replay loop of `calculateFitness` over an already-sorted record
list: before each record the `isRunning` flag is read (at the threaded poll
index `t`); a `false` read returns fitness `0` at once.  Returns the
fitness together with the next poll index. -/
def calcFitAux (env : SimEnv) (ind : Individual) (flag : Nat → Bool) :
    List HistoryRecord → SimState → Nat → ℚ × Nat
  | [], st, t => (fitnessOfCounts st.wins st.losses, t)
  | rawItem :: rest, st, t =>
    if flag t = false then (0, t + 1)
    else calcFitAux env ind flag rest (replayStep env ind st rawItem) (t + 1)

/-- `calculateFitness(individual)` with the poll counter threaded from `t`:
sort the run history by id, replay it, and return the win/loss ratio. -/
def calculateFitnessFrom (env : SimEnv) (ind : Individual) (flag : Nat → Bool)
    (historyData : List HistoryRecord) (t : Nat) : ℚ × Nat :=
  calcFitAux env ind flag (sortHistory historyData) initSimState t

/-- `calculateFitness(individual)` (first worker revision), with the shared
`isRunning` flag abstracted as the poll oracle `flag`. -/
def calculateFitness (env : SimEnv) (ind : Individual) (flag : Nat → Bool)
    (historyData : List HistoryRecord) : ℚ :=
  (calculateFitnessFrom env ind flag historyData 0).1

/-- A run during which no stop is ever observed. -/
def trueFlag : Nat → Bool := fun _ => true

/-- The replay state after an uncancelled fitness evaluation; its `wins` and
`losses` are the tallies whose ratio `calculateFitness` returns. -/
def replayFinal (env : SimEnv) (ind : Individual) (historyData : List HistoryRecord) : SimState :=
  (sortHistory historyData).foldl (replayStep env ind) initSimState

/-! ## The evolution loop (`runEvolution`, first worker revision) -/

/-- The events the worker posts to the controller (`postMessage`); payload
strings such as `bestFitness.toFixed(3)` are carried as exact rationals. -/
inductive WorkerEvent : Type
  | progress (generation maxGenerations : Nat) (bestFitness : ℚ)
      (bestIndividual : Individual) (processedCount : Nat)
  | complete (generation : Nat) (bestFitness : ℚ) (bestIndividual : Individual)
  | stopped
deriving DecidableEq

/-- `true` exactly for the two terminal events. -/
def isTerminalEvent : WorkerEvent → Bool
  | WorkerEvent.progress _ _ _ _ _ => false
  | WorkerEvent.complete _ _ _ => true
  | WorkerEvent.stopped => true

/-- The initial population: `populationSize` fresh random individuals, all
at fitness 0. -/
def buildPopulation (rng : Nat → ℚ) : Nat → Nat → List PopEntry × Nat
  | 0, rt => ([], rt)
  | n + 1, rt =>
    let c := createIndividual rng rt
    let rest := buildPopulation rng n c.2
    ({ individual := c.1, fitness := 0 } :: rest.1, rest.2)

/-- The per-generation fitness loop: each individual is preceded by an
`isRunning` poll; a `false` read makes the worker post `stopped` and return
(`none` here). -/
def evalPopulation (env : SimEnv) (hist : List HistoryRecord) (flag : Nat → Bool) :
    List PopEntry → Nat → Option (List PopEntry × Nat)
  | [], t => some ([], t)
  | p :: ps, t =>
    if flag t = false then none
    else
      let r := calculateFitnessFrom env p.individual flag hist (t + 1)
      match evalPopulation env hist flag ps r.2 with
      | none => none
      | some (qs, t2) => some ({ p with fitness := r.1 } :: qs, t2)

/-- `population.sort((a, b) => b.fitness - a.fitness)`: stable descending. -/
def sortByFitness (l : List PopEntry) : List PopEntry :=
  List.insertionSort (fun a b => b.fitness ≤ a.fitness) l

/-- The breeding loop: until the population is refilled, poll `isRunning`
(`none` = stop observed, worker posts `stopped`), select two parents, breed
by crossover or cloning, then mutate. -/
def breedLoop (pop : List PopEntry) (flag : Nat → Bool) (rng : Nat → ℚ) :
    Nat → List PopEntry → Nat → Nat → Option (List PopEntry × Nat × Nat)
  | 0, acc, t, rt => some (acc, t, rt)
  | fuel + 1, acc, t, rt =>
    if flag t = false then none
    else
      let s1 := selectParent pop rng rt
      let s2 := selectParent pop rng s1.2
      let coin := rng s2.2
      let child :=
        if coin < GA_CONFIG.crossoverRate then crossover rng (s2.2 + 1) s1.1.individual s2.1.individual
        else (s1.1.individual, s2.2 + 1)
      let child2 := mutate rng child.2 child.1
      breedLoop pop flag rng fuel (acc ++ [{ individual := child2.1, fitness := 0 }])
        (t + 1) child2.2

/-- The `if (isRunning)` completion check after the generation loop exits
(one more flag read): a `complete` event from `population[0]`, or nothing. -/
def completionTail (pop : List PopEntry) (generationCount : Nat) (flag : Nat → Bool)
    (t : Nat) : List WorkerEvent :=
  if flag t = true then
    let top := listGetD pop 0 popDummy
    [WorkerEvent.complete generationCount top.fitness top.individual]
  else []

/-- The `while (isRunning && generationCount < maxGenerations)` loop.
`fuel` is the number of generations still allowed (`maxGenerations -
generationCount`); each loop-condition evaluation reads the flag once. -/
def evolutionLoop (env : SimEnv) (hist : List HistoryRecord) (flag : Nat → Bool)
    (rng : Nat → ℚ) : Nat → Nat → List PopEntry → Nat → Nat → List WorkerEvent
  | 0, generationCount, pop, t, _rt => completionTail pop generationCount flag (t + 1)
  | fuel + 1, generationCount, pop, t, rt =>
    if flag t = false then completionTail pop generationCount flag (t + 1)
    else
      let gen := generationCount + 1
      match evalPopulation env hist flag pop (t + 1) with
      | none => [WorkerEvent.stopped]
      | some (pop1, t1) =>
        if flag t1 = false then [WorkerEvent.stopped]
        else
          let pop2 := sortByFitness pop1
          let top := listGetD pop2 0 popDummy
          let ev := WorkerEvent.progress gen GA_CONFIG.maxGenerations top.fitness
            top.individual (gen * GA_CONFIG.populationSize)
          let elites := pop2.take GA_CONFIG.eliteCount
          match breedLoop pop2 flag rng (GA_CONFIG.populationSize - elites.length)
              elites (t1 + 1) rt with
          | none => [ev, WorkerEvent.stopped]
          | some (newPop, t2, rt2) =>
            ev :: evolutionLoop env hist flag rng fuel gen newPop t2 rt2

/-- `runEvolution()` (first worker revision): seed a random population, run
up to `maxGenerations` generations, and return the posted event trace. -/
def runEvolution (env : SimEnv) (hist : List HistoryRecord) (flag : Nat → Bool)
    (rng : Nat → ℚ) : List WorkerEvent :=
  let seeded := buildPopulation rng GA_CONFIG.populationSize 0
  evolutionLoop env hist flag rng GA_CONFIG.maxGenerations 0 seeded.1 0 seeded.2

/-! ## Derived notions named by the claims -/

/-- The number of simulated records that carry a non-null recommendation. -/
def recCount (l : List SimRecord) : Nat :=
  (l.filter (fun it => it.recommendedGroupId.isSome)).length

/-- A value lies on the discretized grid of a parameter spec: it is
`min + k*step` (rounded to 4 decimal places) for an integer step index `k`
between `0` and `(max - min) / step`. -/
def onGrid (spec : ParamSpec) (v : ℚ) : Prop :=
  ∃ k : Nat, (k : ℚ) ≤ (spec.hi - spec.lo) / spec.step ∧
    v = round4 (spec.lo + (k : ℚ) * spec.step)

/-- Every draw of the random source lies in `[0, 1)`, as `Math.random`
guarantees. -/
def RngOk (rng : Nat → ℚ) : Prop := ∀ m, 0 ≤ rng m ∧ rng m < 1

/-- Every gene of an individual lies on the grid of its parameter spec. -/
def IndividualOnGrid (ind : Individual) : Prop :=
  onGrid psLearningRate_success ind.learningRate_success ∧
  onGrid psLearningRate_failure ind.learningRate_failure ∧
  onGrid psMaxWeight ind.maxWeight ∧
  onGrid psMinWeight ind.minWeight ∧
  onGrid psDecayFactor ind.decayFactor ∧
  onGrid psPatternMinAttempts ind.patternMinAttempts ∧
  onGrid psPatternSuccessThreshold ind.patternSuccessThreshold ∧
  onGrid psTriggerMinAttempts ind.triggerMinAttempts ∧
  onGrid psTriggerSuccessThreshold ind.triggerSuccessThreshold ∧
  onGrid psAdaptiveSuccessRate ind.adaptiveSuccessRate ∧
  onGrid psAdaptiveFailureRate ind.adaptiveFailureRate ∧
  onGrid psMinAdaptiveInfluence ind.minAdaptiveInfluence ∧
  onGrid psMaxAdaptiveInfluence ind.maxAdaptiveInfluence

/-- The hit-zone geometry stated by the specification: the zone contains the
base, the terminals and the neighbour spreads, and the spread widths follow
the terminal count, with the dynamic collapse to `0` on a direct match. -/
def HitZoneSpec (base : Int) (terms : List Int) (win : Option Int) (dyn : Bool)
    (tm : Int → List Int) (wheel : List Int) : Prop :=
  base ∈ getHitZone base terms win dyn tm wheel ∧
  (∀ t ∈ terms, t ∈ getHitZone base terms win dyn tm wheel) ∧
  (∀ x ∈ getNeighbours base (baseNeighbourCount terms.length) wheel,
    x ∈ getHitZone base terms win dyn tm wheel) ∧
  (∀ t ∈ terms, ∀ x ∈ getNeighbours t (terminalNeighbourCount dyn win base terms) wheel,
    x ∈ getHitZone base terms win dyn tm wheel) ∧
  (terms.length = 1 → baseNeighbourCount terms.length = 3) ∧
  (2 ≤ terms.length → baseNeighbourCount terms.length = 1) ∧
  (terms.length = 0 → baseNeighbourCount terms.length = 0) ∧
  (∀ w, dyn = true → win = some w → base = w ∨ w ∈ terms →
    terminalNeighbourCount dyn win base terms = 0) ∧
  (¬ (dyn = true ∧ ∃ w, win = some w ∧ (base = w ∨ w ∈ terms)) →
    terminalNeighbourCount dyn win base terms =
      (if terms.length = 1 ∨ terms.length = 2 then 3
       else if 2 < terms.length then 1 else 0))

/-! ## Concrete test fixtures -/

/-- A 37-pocket wheel (the claims under test do not depend on the physical
pocket order). -/
def wheelW : List Int := (List.range 37).map Int.ofNat

/-- A prediction type whose base position is its first input. -/
def typeA : PredType := { id := "A", calculateBase := fun n1 _ => n1 }

/-- Test environment: one prediction type, no terminals. -/
def envW : SimEnv :=
  { predictionTypes := [typeA], terminalMapping := fun _ => [], rouletteWheel := wheelW }

/-- A concrete individual used for witness evaluations. -/
def indW : Individual :=
  { learningRate_success := 0.1, learningRate_failure := 0.05, maxWeight := 5,
    minWeight := 0.5, decayFactor := 0.9, patternMinAttempts := 5,
    patternSuccessThreshold := 60, triggerMinAttempts := 5, triggerSuccessThreshold := 60,
    adaptiveSuccessRate := 0.02, adaptiveFailureRate := 0.02,
    minAdaptiveInfluence := 0, maxAdaptiveInfluence := 5 }

/-- A resolved record with the given id, first input and winning number. -/
def mkRec (i : Int) (n1 : Int) (w : Int) : HistoryRecord :=
  { id := i, num1 := n1, num2 := 0, difference := 0, winningNumber := some w }

/-- A six-record history whose replay under `envW`/`indW` produces exactly
2 wins and 3 losses. -/
def histW : List HistoryRecord :=
  [mkRec 1 5 5, mkRec 2 5 5, mkRec 3 5 6, mkRec 4 5 5, mkRec 5 5 6, mkRec 6 5 6]

/-- Three records with a duplicated id 1: the two id-1 records differ in
outcome, so their relative order changes the replay. -/
def recA : HistoryRecord := mkRec 1 5 5

/-- Second id-1 record (a miss for `typeA`). -/
def recB : HistoryRecord := mkRec 1 5 6

/-- The id-2 record (a hit for `typeA`). -/
def recC : HistoryRecord := mkRec 2 5 5

/-- History for the cancellation witness: one unresolved then one resolved
record. -/
def histC3 : List HistoryRecord :=
  [{ id := 1, num1 := 5, num2 := 0, difference := 0, winningNumber := none }, mkRec 2 5 5]

/-- A cancellation flag observed `true` at poll 0 and `false` from poll 1. -/
def flagC3 : Nat → Bool := fun j => decide (j < 1)

/-- A cancellation flag that flips exactly between the last breeding poll of
generation 1 (poll 97) and the loop-condition poll of generation 2
(poll 98). -/
def stopFlag98 : Nat → Bool := fun t => decide (t < 98)

/-- A stuck stop flag observed one poll earlier, during breeding. -/
def stopFlag97 : Nat → Bool := fun t => decide (t < 97)

/-- The degenerate random source drawing `0` forever. -/
def zeroRng : Nat → ℚ := fun _ => 0

/-- Trend stats for the trend-confirmation-gate witness: the last successful
record hit only type `B`. -/
def trendW : TrendStats :=
  { averages := [], currentStreaks := [], lastSuccessState := ["B"] }

/-- A recommendation context in which type `A` scores 30 (positive) while
the trend-confirmation gate demands a `Wait` display. -/
def ctxW : RecContext :=
  { trendStats := trendW,
    boardStats := [("A", { success := 1, total := 1 })],
    neighbourScores := [], diff := 0, inputNum1 := 5, inputNum2 := 0,
    isForWeightUpdate := false, currentAdaptiveInfluences := [("Hit Rate", 1)],
    lastWinningNumber := none, useProximityBoost := false, useWeightedZone := false,
    useNeighbourFocus := true, isAiReady := false, useTrendConfirmation := true,
    strategyConfig := simStrategyConfig indW, activePredictionTypes := [typeA],
    allPredictionTypes := [typeA], terminalMapping := fun _ => [], rouletteWheel := wheelW,
    useDynamicTerminalNeighbourCount := true }

/-- An inert default candidate (only used as an `Option.getD` fallback). -/
def fallbackCandidate : Candidate :=
  { type := typeA, score := 0,
    details := { hitRate := 0, avgTrend := 0, currentStreak := 0, predictiveDistance := none,
                 finalScore := 0, primaryDrivingFactor := "N/A", individualScores := [] } }

/-- The top candidate computed in `ctxW`. -/
def candW : Candidate := ((recCandidatesSorted ctxW).head?).getD fallbackCandidate

/-- A shuffle of `histW` (all ids distinct). -/
def histWShuffled : List HistoryRecord :=
  [mkRec 4 5 5, mkRec 1 5 5, mkRec 6 5 6, mkRec 2 5 5, mkRec 5 5 6, mkRec 3 5 6]

/-! ## Lemmas about the fitness replay loop -/

theorem calcFitAux_of_true (env : SimEnv) (ind : Individual) (flag : Nat → Bool)
    (hflag : ∀ t, flag t = true) :
    ∀ (l : List HistoryRecord) (st : SimState) (t : Nat),
      calcFitAux env ind flag l st t =
        (fitnessOfCounts (l.foldl (replayStep env ind) st).wins
          (l.foldl (replayStep env ind) st).losses, t + l.length) := by
  intro l
  induction l with
  | nil => intro st t; rfl
  | cons r rs ih =>
    intro st t
    rw [calcFitAux, hflag t]
    simp only [Bool.true_eq_false, if_false, ih (replayStep env ind st r) (t + 1),
      List.foldl_cons, List.length_cons]
    -- the pair components agree; only the poll index needs arithmetic
    congr 1
    omega

theorem calcFitAux_stop (env : SimEnv) (ind : Individual) (flag : Nat → Bool) :
    ∀ (l : List HistoryRecord) (st : SimState) (t0 i : Nat),
      i < l.length → (∀ j, j < i → flag (t0 + j) = true) → flag (t0 + i) = false →
      calcFitAux env ind flag l st t0 = (0, t0 + i + 1) := by
  intro l
  induction l with
  | nil => intro st t0 i hi; exact absurd hi (by simp)
  | cons r rs ih =>
    intro st t0 i hi hpre hstop
    match i with
    | 0 =>
      rw [calcFitAux, show flag t0 = false from hstop]
      simp
    | i' + 1 =>
      have h0 : flag t0 = true := by simpa using hpre 0 (Nat.succ_pos i')
      rw [calcFitAux, h0]
      simp only [Bool.true_eq_false, if_false]
      have := ih (replayStep env ind st r) (t0 + 1) i'
        (by simpa [Nat.succ_lt_succ_iff] using hi)
        (fun j hj => by
          have := hpre (j + 1) (Nat.succ_lt_succ hj)
          simpa [Nat.add_assoc, Nat.add_comm 1 j] using this)
        (by simpa [Nat.add_assoc, Nat.add_comm 1 i'] using hstop)
      rw [this]
      congr 1
      omega

/-! ## Lemmas about outcome evaluation and tallying -/

theorem evalStatusStep_recId (w : Int) (d : Bool) (tm : Int → List Int) (wh : List Int)
    (acc : SimRecord × Option Nat) (ty : PredType) :
    ((evalStatusStep w d tm wh acc ty).1).recommendedGroupId = (acc.1).recommendedGroupId := by
  simp only [evalStatusStep]
  split
  · rfl
  · split
    · rfl
    · rfl

theorem foldl_evalStatusStep_recId (w : Int) (d : Bool) (tm : Int → List Int)
    (wh : List Int) :
    ∀ (ts : List PredType) (acc : SimRecord × Option Nat),
      ((ts.foldl (evalStatusStep w d tm wh) acc).1).recommendedGroupId =
        (acc.1).recommendedGroupId := by
  intro ts
  induction ts with
  | nil => intro acc; rfl
  | cons ty ts ih =>
    intro acc
    rw [List.foldl_cons, ih, evalStatusStep_recId]

theorem evaluateCalculationStatus_recId (i : SimRecord) (w : Int) (d : Bool)
    (ts : List PredType) (tm : Int → List Int) (wh : List Int) :
    (evaluateCalculationStatus i w d ts tm wh).recommendedGroupId = i.recommendedGroupId := by
  unfold evaluateCalculationStatus
  exact foldl_evalStatusStep_recId w d tm wh ts _

theorem recCount_append_single (l : List SimRecord) (x : SimRecord) :
    recCount (l ++ [x]) = recCount l + (if x.recommendedGroupId.isSome then 1 else 0) := by
  unfold recCount
  rw [List.filter_append, List.length_append]
  cases h : x.recommendedGroupId.isSome <;> simp [List.filter_cons, h]

theorem replayOutcome_tally (env : SimEnv) (ind : Individual) (st : SimState)
    (raw : HistoryRecord) (win : Int) (R : Option Candidate) :
    (replayOutcome env ind st raw win R).wins + (replayOutcome env ind st raw win R).losses =
      st.wins + st.losses + (if R.isSome then 1 else 0) ∧
    recCount (replayOutcome env ind st raw win R).simulatedHistory =
      recCount st.simulatedHistory + (if R.isSome then 1 else 0) := by
  simp only [replayOutcome]
  rw [recCount_append_single]
  generalize hsi : evaluateCalculationStatus
      { id := raw.id, num1 := raw.num1, num2 := raw.num2, difference := raw.difference,
        winningNumber := raw.winningNumber, hitTypes := [], typeSuccessStatus := [],
        status := RecStatus.pending,
        recommendedGroupId := Option.map (fun c => c.type.id) R,
        recommendationDetails := Option.map (fun c => c.details) R, pocketDistance := none,
        recommendedGroupPocketDistance := none }
      win true env.predictionTypes env.terminalMapping env.rouletteWheel = si
  have hid : si.recommendedGroupId = Option.map (fun c => c.type.id) R := by
    rw [← hsi, evaluateCalculationStatus_recId]
  rw [hid]
  cases R with
  | none => simp
  | some c =>
    by_cases hmem : c.type.id ∈ si.hitTypes <;> simp [hmem] <;> omega

theorem replayStep_tally (env : SimEnv) (ind : Individual) (st : SimState)
    (raw : HistoryRecord) :
    (replayStep env ind st raw).wins + (replayStep env ind st raw).losses +
        recCount st.simulatedHistory =
      st.wins + st.losses + recCount (replayStep env ind st raw).simulatedHistory ∧
    (replayStep env ind st raw).wins + (replayStep env ind st raw).losses ≤
      st.wins + st.losses + (if raw.winningNumber.isSome then 1 else 0) := by
  cases h : raw.winningNumber with
  | none => simp [replayStep, h]
  | some w =>
    simp only [replayStep, h, Option.isSome_some, if_true]
    obtain ⟨h1, h2⟩ := replayOutcome_tally env ind st raw w
      (getRecommendation
        { trendStats := calculateTrendStats st.simulatedHistory (simStrategyConfig ind)
            env.predictionTypes,
          boardStats := getBoardStateStats st.simulatedHistory (simStrategyConfig ind)
            env.predictionTypes,
          neighbourScores := runNeighbourAnalysis st.simulatedHistory (simStrategyConfig ind)
            true env.predictionTypes env.terminalMapping env.rouletteWheel,
          diff := raw.difference, inputNum1 := raw.num1, inputNum2 := raw.num2,
          isForWeightUpdate := false, currentAdaptiveInfluences := st.influences,
          lastWinningNumber := st.confirmedWinsLog.getLast?,
          useProximityBoost := true, useWeightedZone := true, useNeighbourFocus := true,
          isAiReady := false, useTrendConfirmation := true,
          strategyConfig := simStrategyConfig ind,
          activePredictionTypes := env.predictionTypes,
          allPredictionTypes := env.predictionTypes,
          terminalMapping := env.terminalMapping, rouletteWheel := env.rouletteWheel,
          useDynamicTerminalNeighbourCount := true }).bestCandidate
    have hle : (if (getRecommendation
        { trendStats := calculateTrendStats st.simulatedHistory (simStrategyConfig ind)
            env.predictionTypes,
          boardStats := getBoardStateStats st.simulatedHistory (simStrategyConfig ind)
            env.predictionTypes,
          neighbourScores := runNeighbourAnalysis st.simulatedHistory (simStrategyConfig ind)
            true env.predictionTypes env.terminalMapping env.rouletteWheel,
          diff := raw.difference, inputNum1 := raw.num1, inputNum2 := raw.num2,
          isForWeightUpdate := false, currentAdaptiveInfluences := st.influences,
          lastWinningNumber := st.confirmedWinsLog.getLast?,
          useProximityBoost := true, useWeightedZone := true, useNeighbourFocus := true,
          isAiReady := false, useTrendConfirmation := true,
          strategyConfig := simStrategyConfig ind,
          activePredictionTypes := env.predictionTypes,
          allPredictionTypes := env.predictionTypes,
          terminalMapping := env.terminalMapping, rouletteWheel := env.rouletteWheel,
          useDynamicTerminalNeighbourCount := true }).bestCandidate.isSome then 1 else 0)
        ≤ 1 := by split <;> omega
    constructor
    · omega
    · omega

theorem foldl_replay_tally (env : SimEnv) (ind : Individual) :
    ∀ (l : List HistoryRecord) (st : SimState),
      (l.foldl (replayStep env ind) st).wins + (l.foldl (replayStep env ind) st).losses +
          recCount st.simulatedHistory =
        st.wins + st.losses +
          recCount (l.foldl (replayStep env ind) st).simulatedHistory ∧
      (l.foldl (replayStep env ind) st).wins + (l.foldl (replayStep env ind) st).losses ≤
        st.wins + st.losses + (l.filter (fun r => r.winningNumber.isSome)).length := by
  intro l
  induction l with
  | nil => intro st; simp
  | cons r rs ih =>
    intro st
    obtain ⟨s1, s2⟩ := replayStep_tally env ind st r
    obtain ⟨f1, f2⟩ := ih (replayStep env ind st r)
    rw [List.foldl_cons]
    have hfil : (List.filter (fun r => r.winningNumber.isSome) (r :: rs)).length =
        (if r.winningNumber.isSome then 1 else 0) +
          (List.filter (fun r => r.winningNumber.isSome) rs).length := by
      cases h : r.winningNumber.isSome <;> simp [List.filter_cons, h] <;> omega
    constructor
    · omega
    · rw [hfil]; omega

/-! ## Lemmas about hit-zone membership -/

theorem mem_addUnique_self (l : List Int) (a : Int) : a ∈ addUnique l a := by
  unfold addUnique
  split
  · assumption
  · simp

theorem mem_addUnique_of_mem {x : Int} {l : List Int} (h : x ∈ l) (a : Int) :
    x ∈ addUnique l a := by
  unfold addUnique
  split
  · exact h
  · simp [h]

theorem mem_foldl_addUnique_of_mem {x : Int} :
    ∀ (ys : List Int) {l : List Int}, x ∈ l → x ∈ ys.foldl addUnique l := by
  intro ys
  induction ys with
  | nil => intro l h; exact h
  | cons y ys ih => intro l h; exact ih (mem_addUnique_of_mem h y)

theorem mem_foldl_addUnique_of_mem_arg {x : Int} :
    ∀ (ys : List Int) (l : List Int), x ∈ ys → x ∈ ys.foldl addUnique l := by
  intro ys
  induction ys with
  | nil => intro l h; cases h
  | cons y ys ih =>
    intro l h
    rcases List.mem_cons.mp h with rfl | h
    · exact mem_foldl_addUnique_of_mem ys (mem_addUnique_self l x)
    · exact ih (addUnique l y) h

theorem getNeighbours_zero (n : Int) (wheel : List Int) : getNeighbours n 0 wheel = [] := by
  unfold getNeighbours
  cases List.findIdx? (fun x => x == n) wheel <;> rfl

theorem mem_termStep_of_mem {x : Int} {z : List Int} (h : x ∈ z) (c : Nat)
    (w : List Int) (t : Int) : x ∈ termStep c w z t := by
  unfold termStep
  split
  · exact mem_foldl_addUnique_of_mem _ (mem_addUnique_of_mem h t)
  · exact mem_addUnique_of_mem h t

theorem mem_termStep_self (c : Nat) (w : List Int) (z : List Int) (t : Int) :
    t ∈ termStep c w z t := by
  unfold termStep
  split
  · exact mem_foldl_addUnique_of_mem _ (mem_addUnique_self z t)
  · exact mem_addUnique_self z t

theorem mem_termStep_neighbours {x : Int} {c : Nat} {w : List Int} {t : Int}
    (h : x ∈ getNeighbours t c w) (z : List Int) : x ∈ termStep c w z t := by
  unfold termStep
  split
  · exact mem_foldl_addUnique_of_mem_arg _ _ h
  · next hc =>
    rw [Nat.eq_zero_of_not_pos hc, getNeighbours_zero] at h
    cases h

theorem mem_foldl_termStep_of_mem {x : Int} {c : Nat} {w : List Int} :
    ∀ (ts : List Int) {z : List Int}, x ∈ z → x ∈ ts.foldl (termStep c w) z := by
  intro ts
  induction ts with
  | nil => intro z h; exact h
  | cons t ts ih => intro z h; exact ih (mem_termStep_of_mem h c w t)

theorem mem_foldl_termStep_self {c : Nat} {w : List Int} {t : Int} :
    ∀ (ts : List Int) (z : List Int), t ∈ ts → t ∈ ts.foldl (termStep c w) z := by
  intro ts
  induction ts with
  | nil => intro z h; cases h
  | cons t0 ts ih =>
    intro z h
    rcases List.mem_cons.mp h with rfl | h
    · exact mem_foldl_termStep_of_mem ts (mem_termStep_self c w z t)
    · exact ih _ h

theorem mem_foldl_termStep_neighbours {x : Int} {c : Nat} {w : List Int} {t : Int}
    (hx : x ∈ getNeighbours t c w) :
    ∀ (ts : List Int) (z : List Int), t ∈ ts → x ∈ ts.foldl (termStep c w) z := by
  intro ts
  induction ts with
  | nil => intro z h; cases h
  | cons t0 ts ih =>
    intro z h
    rcases List.mem_cons.mp h with rfl | h
    · exact mem_foldl_termStep_of_mem ts (mem_termStep_neighbours hx z)
    · exact ih _ h

/-! ## Lemmas about the association-list map operations -/

theorem lookupA_setA_self {α : Type} (l : List (String × α)) (k : String) (v : α) :
    lookupA (setA l k v) k = some v := by
  induction l with
  | nil => simp [setA, lookupA]
  | cons p rest ih =>
    obtain ⟨k', v'⟩ := p
    by_cases h : k' = k
    · subst h
      simp [setA, lookupA]
    · have hbeq : (k' == k) = false := beq_eq_false_iff_ne.mpr h
      simp only [setA, hbeq, Bool.false_eq_true, if_false]
      simpa [lookupA, List.find?, hbeq] using ih

theorem setA_of_lookupA_none {α : Type} :
    ∀ (l : List (String × α)) (k : String) (v : α), lookupA l k = none →
      setA l k v = l ++ [(k, v)] := by
  intro l
  induction l with
  | nil => intro k v _; rfl
  | cons p rest ih =>
    intro k v h
    obtain ⟨k', v'⟩ := p
    have hk : ¬ (k' = k) := by
      intro hkk
      subst hkk
      simp [lookupA, List.find?] at h
    have hbeq : (k' == k) = false := beq_eq_false_iff_ne.mpr hk
    simp only [lookupA, List.find?, hbeq] at h
    simp only [setA, hbeq, Bool.false_eq_true, if_false, List.cons_append,
      List.cons.injEq, true_and]
    exact ih k v h

theorem map_fst_setA_of_mem {α : Type} :
    ∀ (l : List (String × α)) (k : String) (v : α), lookupA l k ≠ none →
      (setA l k v).map Prod.fst = l.map Prod.fst := by
  intro l
  induction l with
  | nil => intro k v h; exact absurd rfl h
  | cons p rest ih =>
    intro k v h
    obtain ⟨k', v'⟩ := p
    by_cases hk : k' = k
    · subst hk
      simp [setA]
    · have hbeq : (k' == k) = false := beq_eq_false_iff_ne.mpr hk
      simp only [lookupA, List.find?, hbeq] at h
      simp only [setA, hbeq, Bool.false_eq_true, if_false, List.map_cons,
        List.cons.injEq, true_and]
      exact ih k v h

/-! ## Lemmas about grid containment -/

theorem geneSample_onGrid (spec : ParamSpec) (R : Nat)
    (hR : (spec.hi - spec.lo) / spec.step = (R : ℚ))
    (r : ℚ) (h0 : 0 ≤ r) (h1 : r < 1) : onGrid spec (geneSample spec r) := by
  have hpos : (0 : ℚ) < (R : ℚ) + 1 := by positivity
  have hx0 : (0 : ℚ) ≤ r * ((R : ℚ) + 1) := mul_nonneg h0 (le_of_lt hpos)
  have hxlt : r * ((R : ℚ) + 1) < (R : ℚ) + 1 := by
    calc r * ((R : ℚ) + 1) < 1 * ((R : ℚ) + 1) := mul_lt_mul_of_pos_right h1 hpos
      _ = (R : ℚ) + 1 := one_mul _
  have hfl0 : 0 ≤ Int.floor (r * ((R : ℚ) + 1)) := Int.floor_nonneg.mpr hx0
  have hflR : Int.floor (r * ((R : ℚ) + 1)) ≤ (R : ℤ) := by
    have hlt : Int.floor (r * ((R : ℚ) + 1)) < (R : ℤ) + 1 := by
      rw [Int.floor_lt]
      push_cast
      exact hxlt
    omega
  have hcast : (((Int.floor (r * ((R : ℚ) + 1))).toNat : ℕ) : ℚ) =
      ((Int.floor (r * ((R : ℚ) + 1)) : ℤ) : ℚ) := by
    exact_mod_cast congrArg (fun z : ℤ => (z : ℚ)) (Int.toNat_of_nonneg hfl0)
  refine ⟨(Int.floor (r * ((R : ℚ) + 1))).toNat, ?_, ?_⟩
  · rw [hR]
    have hk : ((Int.floor (r * ((R : ℚ) + 1))).toNat : ℤ) ≤ (R : ℤ) := by
      rw [Int.toNat_of_nonneg hfl0]
      exact hflR
    exact_mod_cast hk
  · unfold geneSample
    rw [hR, hcast]

theorem crossPick_cases (r a b : ℚ) : crossPick r a b = a ∨ crossPick r a b = b := by
  unfold crossPick
  split
  · left; rfl
  · right; rfl

theorem mutateGene_cases (spec : ParamSpec) (rng : Nat → ℚ) (t : Nat) (v : ℚ) :
    (mutateGene spec rng t v).1 = geneSample spec (rng (t + 1)) ∨
    (mutateGene spec rng t v).1 = v := by
  unfold mutateGene
  split
  · left; rfl
  · right; rfl

theorem mutateGene_onGrid (spec : ParamSpec) (R : Nat)
    (hR : (spec.hi - spec.lo) / spec.step = (R : ℚ)) (rng : Nat → ℚ) (t : Nat) (v : ℚ)
    (h : RngOk rng) (hv : onGrid spec v) : onGrid spec (mutateGene spec rng t v).1 := by
  rcases mutateGene_cases spec rng t v with hc | hc
  · rw [hc]
    exact geneSample_onGrid spec R hR _ (h _).1 (h _).2
  · rw [hc]
    exact hv

theorem createIndividual_onGrid (rng : Nat → ℚ) (t : Nat) (h : RngOk rng) :
    IndividualOnGrid (createIndividual rng t).1 := by
  unfold createIndividual IndividualOnGrid
  dsimp only
  exact ⟨geneSample_onGrid _ 99 (by norm_num [psLearningRate_success]) _ (h _).1 (h _).2,
    geneSample_onGrid _ 49 (by norm_num [psLearningRate_failure]) _ (h _).1 (h _).2,
    geneSample_onGrid _ 90 (by norm_num [psMaxWeight]) _ (h _).1 (h _).2,
    geneSample_onGrid _ 100 (by norm_num [psMinWeight]) _ (h _).1 (h _).2,
    geneSample_onGrid _ 29 (by norm_num [psDecayFactor]) _ (h _).1 (h _).2,
    geneSample_onGrid _ 19 (by norm_num [psPatternMinAttempts]) _ (h _).1 (h _).2,
    geneSample_onGrid _ 50 (by norm_num [psPatternSuccessThreshold]) _ (h _).1 (h _).2,
    geneSample_onGrid _ 19 (by norm_num [psTriggerMinAttempts]) _ (h _).1 (h _).2,
    geneSample_onGrid _ 50 (by norm_num [psTriggerSuccessThreshold]) _ (h _).1 (h _).2,
    geneSample_onGrid _ 49 (by norm_num [psAdaptiveSuccessRate]) _ (h _).1 (h _).2,
    geneSample_onGrid _ 49 (by norm_num [psAdaptiveFailureRate]) _ (h _).1 (h _).2,
    geneSample_onGrid _ 100 (by norm_num [psMinAdaptiveInfluence]) _ (h _).1 (h _).2,
    geneSample_onGrid _ 40 (by norm_num [psMaxAdaptiveInfluence]) _ (h _).1 (h _).2⟩

theorem crossover_onGrid (rng : Nat → ℚ) (t : Nat) (p1 p2 : Individual)
    (h1 : IndividualOnGrid p1) (h2 : IndividualOnGrid p2) :
    IndividualOnGrid (crossover rng t p1 p2).1 := by
  obtain ⟨a1, a2, a3, a4, a5, a6, a7, a8, a9, a10, a11, a12, a13⟩ := h1
  obtain ⟨b1, b2, b3, b4, b5, b6, b7, b8, b9, b10, b11, b12, b13⟩ := h2
  unfold crossover IndividualOnGrid
  dsimp only
  refine ⟨?_, ?_, ?_, ?_, ?_, ?_, ?_, ?_, ?_, ?_, ?_, ?_, ?_⟩
  · rcases crossPick_cases (rng t) p1.learningRate_success p2.learningRate_success with hc | hc <;>
      rw [hc] <;> assumption
  · rcases crossPick_cases (rng (t + 1)) p1.learningRate_failure p2.learningRate_failure
      with hc | hc <;> rw [hc] <;> assumption
  · rcases crossPick_cases (rng (t + 2)) p1.maxWeight p2.maxWeight with hc | hc <;>
      rw [hc] <;> assumption
  · rcases crossPick_cases (rng (t + 3)) p1.minWeight p2.minWeight with hc | hc <;>
      rw [hc] <;> assumption
  · rcases crossPick_cases (rng (t + 4)) p1.decayFactor p2.decayFactor with hc | hc <;>
      rw [hc] <;> assumption
  · rcases crossPick_cases (rng (t + 5)) p1.patternMinAttempts p2.patternMinAttempts
      with hc | hc <;> rw [hc] <;> assumption
  · rcases crossPick_cases (rng (t + 6)) p1.patternSuccessThreshold p2.patternSuccessThreshold
      with hc | hc <;> rw [hc] <;> assumption
  · rcases crossPick_cases (rng (t + 7)) p1.triggerMinAttempts p2.triggerMinAttempts
      with hc | hc <;> rw [hc] <;> assumption
  · rcases crossPick_cases (rng (t + 8)) p1.triggerSuccessThreshold p2.triggerSuccessThreshold
      with hc | hc <;> rw [hc] <;> assumption
  · rcases crossPick_cases (rng (t + 9)) p1.adaptiveSuccessRate p2.adaptiveSuccessRate
      with hc | hc <;> rw [hc] <;> assumption
  · rcases crossPick_cases (rng (t + 10)) p1.adaptiveFailureRate p2.adaptiveFailureRate
      with hc | hc <;> rw [hc] <;> assumption
  · rcases crossPick_cases (rng (t + 11)) p1.minAdaptiveInfluence p2.minAdaptiveInfluence
      with hc | hc <;> rw [hc] <;> assumption
  · rcases crossPick_cases (rng (t + 12)) p1.maxAdaptiveInfluence p2.maxAdaptiveInfluence
      with hc | hc <;> rw [hc] <;> assumption

theorem mutate_onGrid (rng : Nat → ℚ) (t : Nat) (p : Individual)
    (h : RngOk rng) (hp : IndividualOnGrid p) : IndividualOnGrid (mutate rng t p).1 := by
  obtain ⟨a1, a2, a3, a4, a5, a6, a7, a8, a9, a10, a11, a12, a13⟩ := hp
  unfold mutate IndividualOnGrid
  dsimp only
  exact ⟨mutateGene_onGrid _ 99 (by norm_num [psLearningRate_success]) rng _ _ h a1,
    mutateGene_onGrid _ 49 (by norm_num [psLearningRate_failure]) rng _ _ h a2,
    mutateGene_onGrid _ 90 (by norm_num [psMaxWeight]) rng _ _ h a3,
    mutateGene_onGrid _ 100 (by norm_num [psMinWeight]) rng _ _ h a4,
    mutateGene_onGrid _ 29 (by norm_num [psDecayFactor]) rng _ _ h a5,
    mutateGene_onGrid _ 19 (by norm_num [psPatternMinAttempts]) rng _ _ h a6,
    mutateGene_onGrid _ 50 (by norm_num [psPatternSuccessThreshold]) rng _ _ h a7,
    mutateGene_onGrid _ 19 (by norm_num [psTriggerMinAttempts]) rng _ _ h a8,
    mutateGene_onGrid _ 50 (by norm_num [psTriggerSuccessThreshold]) rng _ _ h a9,
    mutateGene_onGrid _ 49 (by norm_num [psAdaptiveSuccessRate]) rng _ _ h a10,
    mutateGene_onGrid _ 49 (by norm_num [psAdaptiveFailureRate]) rng _ _ h a11,
    mutateGene_onGrid _ 100 (by norm_num [psMinAdaptiveInfluence]) rng _ _ h a12,
    mutateGene_onGrid _ 40 (by norm_num [psMaxAdaptiveInfluence]) rng _ _ h a13⟩

/-! ## Lemmas about the internal sort -/

theorem sortHistory_sorted (l : List HistoryRecord) :
    (sortHistory l).Sorted (fun a b => a.id ≤ b.id) := by
  haveI : IsTotal HistoryRecord (fun a b => a.id ≤ b.id) :=
    ⟨fun a b => Int.le_total a.id b.id⟩
  haveI : IsTrans HistoryRecord (fun a b => a.id ≤ b.id) :=
    ⟨fun _ _ _ h1 h2 => le_trans h1 h2⟩
  exact List.sorted_insertionSort _ l

theorem sortHistory_eq_of_perm {l₁ l₂ : List HistoryRecord} (hp : List.Perm l₁ l₂)
    (hn : (l₁.map (fun r => r.id)).Nodup) : sortHistory l₁ = sortHistory l₂ := by
  haveI : IsAntisymm HistoryRecord (fun a b => a.id < b.id) :=
    ⟨fun a b h1 h2 => absurd (lt_trans h1 h2) (lt_irrefl _)⟩
  have hp1 : List.Perm (sortHistory l₁) l₁ := List.perm_insertionSort _ l₁
  have hp2 : List.Perm (sortHistory l₂) l₂ := List.perm_insertionSort _ l₂
  have hps : List.Perm (sortHistory l₁) (sortHistory l₂) := hp1.trans (hp.trans hp2.symm)
  have hn1 : ((sortHistory l₁).map (fun r => r.id)).Nodup := ((hp1.map _).nodup_iff).mpr hn
  have hn2 : ((sortHistory l₂).map (fun r => r.id)).Nodup := by
    have hn' : (l₂.map (fun r => r.id)).Nodup := ((hp.map _).nodup_iff).mp hn
    exact ((hp2.map _).nodup_iff).mpr hn'
  have hstrict : ∀ (l : List HistoryRecord), ((sortHistory l).map (fun r => r.id)).Nodup →
      (sortHistory l).Sorted (fun a b => a.id < b.id) := by
    intro l hnd
    have hle := sortHistory_sorted l
    have hne : (sortHistory l).Pairwise (fun a b => a.id ≠ b.id) :=
      (List.pairwise_map).mp hnd
    exact (hle.and hne).imp (fun h => lt_of_le_of_ne h.1 h.2)
  exact List.eq_of_perm_of_sorted hps (hstrict l₁ hn1) (hstrict l₂ hn2)

/-! ## Theorems for the claims -/

/-- Claim C1: For every environment, individual and history list, the
uncancelled `calculateFitness` returns `wins / losses` of the replay tally
when `losses > 0`, `wins * 10` when `losses = 0 < wins`, and `0` when both
are zero; on the empty history it returns `0` under any flag; and whenever
a replay produces 2 wins and 3 losses the fitness is `2/3`. -/
theorem calculateFitness_ratio_spec (env : SimEnv) (ind : Individual)
    (hist : List HistoryRecord) :
    (0 < (replayFinal env ind hist).losses →
      calculateFitness env ind trueFlag hist =
        ((replayFinal env ind hist).wins : ℚ) / ((replayFinal env ind hist).losses : ℚ)) ∧
    ((replayFinal env ind hist).losses = 0 → 0 < (replayFinal env ind hist).wins →
      calculateFitness env ind trueFlag hist = ((replayFinal env ind hist).wins : ℚ) * 10) ∧
    ((replayFinal env ind hist).losses = 0 → (replayFinal env ind hist).wins = 0 →
      calculateFitness env ind trueFlag hist = 0) ∧
    (∀ flag : Nat → Bool, calculateFitness env ind flag [] = 0) ∧
    ((replayFinal env ind hist).wins = 2 → (replayFinal env ind hist).losses = 3 →
      calculateFitness env ind trueFlag hist = 2 / 3) := by
  have hmain : calculateFitness env ind trueFlag hist =
      fitnessOfCounts (replayFinal env ind hist).wins (replayFinal env ind hist).losses := by
    unfold calculateFitness calculateFitnessFrom replayFinal
    rw [calcFitAux_of_true env ind trueFlag (fun _ => rfl)]
  refine ⟨?_, ?_, ?_, ?_, ?_⟩
  · intro hl
    rw [hmain, fitnessOfCounts, if_neg (Nat.pos_iff_ne_zero.mp hl)]
  · intro hl hw
    rw [hmain, fitnessOfCounts, if_pos hl, if_pos hw]
  · intro hl hw
    rw [hmain, fitnessOfCounts, if_pos hl, if_neg (by omega)]
  · intro flag; rfl
  · intro hw hl
    rw [hmain, hw, hl, fitnessOfCounts]
    norm_num

/-- Witness for claim C1: the concrete history `histW` replays to exactly 2 wins
and 3 losses, and its fitness is `2/3`. -/
theorem calculateFitness_ratio_spec_witness :
    (replayFinal envW indW histW).wins = 2 ∧ (replayFinal envW indW histW).losses = 3 ∧
    calculateFitness envW indW trueFlag histW = 2 / 3 := by
  refine ⟨?_, ?_, ?_⟩
  · with_unfolding_all rfl
  · with_unfolding_all rfl
  · exact (calculateFitness_ratio_spec envW indW histW).2.2.2.2
      (by with_unfolding_all rfl) (by with_unfolding_all rfl)

/-- Claim C3: Inside the per-record replay loop the cancellation flag is
polled before each record; if the flag reads `true` for the first `i` polls
and `false` at poll `i` (with record `i` still pending), the evaluation
returns fitness `0` at once, and the records after position `i` are never
consulted: the run over the truncated history is literally the same
computation. -/
theorem calculateFitness_cancellation_spec (env : SimEnv) (ind : Individual)
    (hist : List HistoryRecord) (flag : Nat → Bool) (i : Nat)
    (hi : i < (sortHistory hist).length)
    (hpre : ∀ j, j < i → flag j = true) (hstop : flag i = false) :
    calculateFitness env ind flag hist = 0 ∧
    calcFitAux env ind flag ((sortHistory hist).take (i + 1)) initSimState 0 =
      calcFitAux env ind flag (sortHistory hist) initSimState 0 := by
  have hpre0 : ∀ j, j < i → flag (0 + j) = true := by
    intro j hj; simpa using hpre j hj
  have hstop0 : flag (0 + i) = false := by simpa using hstop
  have hfull := calcFitAux_stop env ind flag (sortHistory hist) initSimState 0 i hi hpre0 hstop0
  have htake := calcFitAux_stop env ind flag ((sortHistory hist).take (i + 1)) initSimState 0 i
    (by simpa using Nat.lt_min.mpr ⟨Nat.lt_succ_self i, hi⟩) hpre0 hstop0
  constructor
  · unfold calculateFitness calculateFitnessFrom
    rw [hfull]
  · rw [hfull, htake]

/-- Claim C7: For every fitness evaluation, `wins + losses` never exceeds the
number of history records with a non-null `winningNumber`, and never
exceeds the number of resolved records for which a non-null recommendation
was produced (the replay records exactly those in its simulated history). -/
theorem replay_wins_losses_bound (env : SimEnv) (ind : Individual)
    (hist : List HistoryRecord) :
    (replayFinal env ind hist).wins + (replayFinal env ind hist).losses ≤
      (hist.filter (fun r => r.winningNumber.isSome)).length ∧
    (replayFinal env ind hist).wins + (replayFinal env ind hist).losses ≤
      recCount (replayFinal env ind hist).simulatedHistory := by
  obtain ⟨h1, h2⟩ := foldl_replay_tally env ind (sortHistory hist) initSimState
  have hperm : List.Perm ((sortHistory hist).filter (fun r => r.winningNumber.isSome))
      (hist.filter (fun r => r.winningNumber.isSome)) :=
    (List.perm_insertionSort _ hist).filter _
  have hlen := hperm.length_eq
  have hw0 : initSimState.wins = 0 := rfl
  have hl0 : initSimState.losses = 0 := rfl
  have hinit : recCount initSimState.simulatedHistory = 0 := rfl
  rw [hw0, hl0] at h1 h2
  rw [hinit] at h1
  unfold replayFinal
  exact ⟨by omega, by omega⟩

/-- Claim C2: For every base position in `0..36` and every terminal list, the
hit zone contains the base, the terminals, and the base/terminal neighbour
spreads; the spread widths follow the claimed case analysis on the number
of terminals; and in dynamic mode a known winning number equal to the base
or to a terminal collapses the terminal spread to `0`. -/
theorem getHitZone_geometry_spec (base : Int) (terms : List Int) (win : Option Int)
    (dyn : Bool) (tm : Int → List Int) (wheel : List Int)
    (h0 : 0 ≤ base) (h36 : base ≤ 36) :
    HitZoneSpec base terms win dyn tm wheel := by
  have hguard : ¬ (base < 0 ∨ 36 < base) := by omega
  have hz : getHitZone base terms win dyn tm wheel =
      (if 0 < terms.length then
        terms.foldl (termStep (terminalNeighbourCount dyn win base terms) wheel)
          (if 0 < baseNeighbourCount terms.length then
            (getNeighbours base (baseNeighbourCount terms.length) wheel).foldl
              addUnique [base]
          else [base])
      else
        (if 0 < baseNeighbourCount terms.length then
          (getNeighbours base (baseNeighbourCount terms.length) wheel).foldl
            addUnique [base]
        else [base])) := by
    unfold getHitZone
    rw [if_neg hguard]
  have hb1 : base ∈ (if 0 < baseNeighbourCount terms.length then
      (getNeighbours base (baseNeighbourCount terms.length) wheel).foldl addUnique [base]
    else [base]) := by
    split
    · exact mem_foldl_addUnique_of_mem _ (by simp)
    · simp
  have hn1 : ∀ x ∈ getNeighbours base (baseNeighbourCount terms.length) wheel,
      x ∈ (if 0 < baseNeighbourCount terms.length then
        (getNeighbours base (baseNeighbourCount terms.length) wheel).foldl addUnique [base]
      else [base]) := by
    intro x hx
    split
    · exact mem_foldl_addUnique_of_mem_arg _ _ hx
    · next hc =>
      rw [Nat.eq_zero_of_not_pos hc, getNeighbours_zero] at hx
      cases hx
  have hlift : ∀ x, x ∈ (if 0 < baseNeighbourCount terms.length then
      (getNeighbours base (baseNeighbourCount terms.length) wheel).foldl addUnique [base]
    else [base]) → x ∈ getHitZone base terms win dyn tm wheel := by
    intro x hx
    rw [hz]
    split
    · exact mem_foldl_termStep_of_mem _ hx
    · exact hx
  refine ⟨hlift base hb1, ?_, fun x hx => hlift x (hn1 x hx), ?_, ?_, ?_, ?_, ?_, ?_⟩
  · intro t ht
    rw [hz, if_pos (List.length_pos.mpr (List.ne_nil_of_mem ht))]
    exact mem_foldl_termStep_self _ _ ht
  · intro t ht x hx
    rw [hz, if_pos (List.length_pos.mpr (List.ne_nil_of_mem ht))]
    exact mem_foldl_termStep_neighbours hx _ _ ht
  · intro h1
    unfold baseNeighbourCount
    rw [if_pos h1]
  · intro h2
    unfold baseNeighbourCount
    rw [if_neg (by omega), if_pos h2]
  · intro he
    unfold baseNeighbourCount
    rw [if_neg (by omega), if_neg (by omega)]
  · intro w hd hw hx
    subst hd
    subst hw
    simp only [terminalNeighbourCount]
    rw [if_pos hx]
  · intro hnc
    unfold terminalNeighbourCount
    cases dyn with
    | false => cases win <;> rfl
    | true =>
      cases win with
      | none => rfl
      | some w =>
        have hx : ¬ (base = w ∨ w ∈ terms) := fun hcontra => hnc ⟨rfl, w, rfl, hcontra⟩
        simp [hx]

/-- Witness for claim C2: base 5 with the single terminal 8 on the 37-pocket
wheel, no winning number, static mode. -/
theorem getHitZone_geometry_spec_witness :
    ((0 : Int) ≤ 5 ∧ (5 : Int) ≤ 36) ∧
    HitZoneSpec 5 [8] none false (fun _ => []) wheelW :=
  ⟨⟨by decide, by decide⟩,
    getHitZone_geometry_spec 5 [8] none false (fun _ => []) wheelW (by decide) (by decide)⟩

/-- Claim C5: The adaptive-influence update of the replay loop has
default-on-miss semantics: a primary-factor name not yet in the map is
inserted at `1.0` before the win/loss adjustment is applied, so afterwards
the map has gained exactly that key, whose value is the clamped adjustment
of `1.0`. -/
theorem updateAdaptiveInfluence_default_insert (rates : AdaptiveRates)
    (influences : List (String × ℚ)) (factor : String) (wasSuccess : Bool)
    (h : lookupA influences factor = none) :
    lookupA (updateAdaptiveInfluence rates influences factor wasSuccess) factor =
      some (if wasSuccess then minQ rates.MAX_INFLUENCE (1 + rates.SUCCESS)
            else maxQ rates.MIN_INFLUENCE (1 - rates.FAILURE)) ∧
    (updateAdaptiveInfluence rates influences factor wasSuccess).map Prod.fst =
      influences.map Prod.fst ++ [factor] := by
  unfold updateAdaptiveInfluence
  rw [if_pos h]
  have hcur : lookupA (setA influences factor (1 : ℚ)) factor = some 1 :=
    lookupA_setA_self influences factor 1
  simp only [hcur, Option.getD_some]
  have hmem : lookupA (setA influences factor (1 : ℚ)) factor ≠ none := by
    rw [hcur]; exact Option.some_ne_none 1
  have hfst : (setA influences factor (1 : ℚ)).map Prod.fst =
      influences.map Prod.fst ++ [factor] := by
    rw [setA_of_lookupA_none influences factor 1 h]
    simp
  cases wasSuccess with
  | false =>
    refine ⟨?_, ?_⟩
    · simpa using lookupA_setA_self (setA influences factor 1) factor _
    · simp only [Bool.false_eq_true, if_false]
      rw [map_fst_setA_of_mem _ factor _ hmem, hfst]
  | true =>
    refine ⟨?_, ?_⟩
    · simpa using lookupA_setA_self (setA influences factor 1) factor _
    · simp only [if_true]
      rw [map_fst_setA_of_mem _ factor _ hmem, hfst]

/-- Witness for claim C5: inserting the unseen factor name `"Momentum"` into the
seed influence map on a win. -/
theorem updateAdaptiveInfluence_default_insert_witness :
    lookupA initAdaptiveInfluences "Momentum" = none ∧
    lookupA (updateAdaptiveInfluence (simAdaptiveRates indW) initAdaptiveInfluences
        "Momentum" true) "Momentum" =
      some (minQ (simAdaptiveRates indW).MAX_INFLUENCE (1 + (simAdaptiveRates indW).SUCCESS)) ∧
    (updateAdaptiveInfluence (simAdaptiveRates indW) initAdaptiveInfluences
        "Momentum" true).map Prod.fst =
      initAdaptiveInfluences.map Prod.fst ++ ["Momentum"] := by
  have h : lookupA initAdaptiveInfluences "Momentum" = none := by decide
  have hmain := updateAdaptiveInfluence_default_insert (simAdaptiveRates indW)
    initAdaptiveInfluences "Momentum" true h
  exact ⟨h, hmain.1, hmain.2⟩

/-- Claim C8: Grid containment: with a random source in `[0, 1)`, every gene
of a freshly created individual lies on its parameter grid
(`min + k*step`, rounded to 4 decimals, with `0 ≤ k ≤ (max-min)/step`);
crossover of two on-grid parents is on-grid; mutation of an on-grid
individual is on-grid.  Hence every individual reachable during a run is
on-grid. -/
theorem gene_values_on_grid :
    (∀ (rng : Nat → ℚ) (t : Nat), RngOk rng → IndividualOnGrid (createIndividual rng t).1) ∧
    (∀ (rng : Nat → ℚ) (t : Nat) (p1 p2 : Individual), IndividualOnGrid p1 →
      IndividualOnGrid p2 → IndividualOnGrid (crossover rng t p1 p2).1) ∧
    (∀ (rng : Nat → ℚ) (t : Nat) (p : Individual), RngOk rng → IndividualOnGrid p →
      IndividualOnGrid (mutate rng t p).1) :=
  ⟨fun rng t h => createIndividual_onGrid rng t h,
   fun rng t p1 p2 h1 h2 => crossover_onGrid rng t p1 p2 h1 h2,
   fun rng t p h hp => mutate_onGrid rng t p h hp⟩

/-- Witness for claim C8: the all-zero random source is in `[0, 1)`, and the
individuals produced from it by creation, crossover and mutation are all
on-grid. -/
theorem gene_values_on_grid_witness :
    RngOk zeroRng ∧
    IndividualOnGrid (createIndividual zeroRng 0).1 ∧
    IndividualOnGrid (crossover zeroRng 0 (createIndividual zeroRng 0).1
      (createIndividual zeroRng 0).1).1 ∧
    IndividualOnGrid (mutate zeroRng 0 (createIndividual zeroRng 0).1).1 := by
  have hr : RngOk zeroRng := fun m => ⟨le_refl 0, by norm_num [zeroRng]⟩
  have hc := gene_values_on_grid.1 zeroRng 0 hr
  exact ⟨hr, hc, gene_values_on_grid.2.1 zeroRng 0 _ _ hc hc,
    gene_values_on_grid.2.2 zeroRng 0 _ hr hc⟩

/-- Claim C9: The trend-confirmation gate never suppresses a counted outcome:
whenever the sorted candidate list has a positive-score head, the returned
`bestCandidate` is exactly that head — so the replay tallies a win or a
loss — and when the gate condition holds on the live-display path the only
effect is the `Wait` signal. -/
theorem getRecommendation_gate_display_only (ctx : RecContext) (c : Candidate)
    (h : (recCandidatesSorted ctx).head? = some c) (hpos : 0 < c.score) :
    (getRecommendation ctx).bestCandidate = some c ∧
    (ctx.isForWeightUpdate = false → ctx.useTrendConfirmation = true →
      0 < ctx.trendStats.lastSuccessState.length →
      c.type.id ∉ ctx.trendStats.lastSuccessState →
      (getRecommendation ctx).signal = some Signal.wait) := by
  simp only [getRecommendation, h]
  rw [if_neg (not_le.mpr hpos)]
  constructor
  · split
    · rfl
    · rfl
  · intro hwu htc hlen hmem
    rw [if_neg (by simp [hwu])]
    rw [if_pos ⟨htc, hlen, hmem⟩]

/-- Witness for claim C9: in `ctxW` the top candidate scores 30 while the gate
condition holds, so the signal is `Wait` yet the candidate is returned. -/
theorem getRecommendation_gate_display_only_witness :
    ((recCandidatesSorted ctxW).head? = some candW ∧ 0 < candW.score) ∧
    (getRecommendation ctxW).bestCandidate = some candW ∧
    (getRecommendation ctxW).signal = some Signal.wait := by
  have h : (recCandidatesSorted ctxW).head? = some candW := by with_unfolding_all rfl
  have hpos : 0 < candW.score := by with_unfolding_all decide
  have hmain := getRecommendation_gate_display_only ctxW candW h hpos
  exact ⟨⟨h, hpos⟩, hmain.1,
    hmain.2 rfl rfl (by decide) (by with_unfolding_all decide)⟩

/-- Claim C10: The geometry helpers are total on out-of-range input: a number
not on the wheel has no neighbours, a pocket distance involving a number
not on the wheel is `Infinity` (modelled `none`), and a hit zone for a base
outside `0..36` is empty. -/
theorem geometry_total_out_of_range :
    (∀ (n : Int) (count : Nat) (wheel : List Int), n ∉ wheel →
      getNeighbours n count wheel = []) ∧
    (∀ (num1 num2 : Int) (wheel : List Int), num1 ∉ wheel ∨ num2 ∉ wheel →
      calculatePocketDistance num1 num2 wheel = none) ∧
    (∀ (base : Int) (terms : List Int) (win : Option Int) (dyn : Bool)
      (tm : Int → List Int) (wheel : List Int), base < 0 ∨ 36 < base →
      getHitZone base terms win dyn tm wheel = []) := by
  have hfind : ∀ (n : Int) (wheel : List Int) (s : Nat), n ∉ wheel →
      List.findIdx? (fun x => x == n) wheel s = none := by
    intro n wheel
    induction wheel with
    | nil => intro s _; rfl
    | cons a l ih =>
      intro s h
      have ha : ¬ (a = n) := fun hc => h (hc ▸ List.mem_cons_self a l)
      have hbeq : (a == n) = false := beq_eq_false_iff_ne.mpr ha
      rw [List.findIdx?_cons, hbeq]
      simp only [Bool.false_eq_true, if_false]
      exact ih (s + 1) (fun hm => h (List.mem_cons_of_mem a hm))
  refine ⟨?_, ?_, ?_⟩
  · intro n count wheel h
    unfold getNeighbours
    rw [hfind n wheel 0 h]
  · intro num1 num2 wheel h
    unfold calculatePocketDistance
    rcases h with h | h
    · rw [hfind num1 wheel 0 h]
    · rw [hfind num2 wheel 0 h]
      cases List.findIdx? (fun x => x == num1) wheel <;> rfl
  · intro base terms win dyn tm wheel h
    unfold getHitZone
    rw [if_pos h]

/-- Witness for claim C10: 99 is not on the 37-pocket wheel and −3 is out of
range, and the three helpers return their sentinel values. -/
theorem geometry_total_out_of_range_witness :
    ((99 : Int) ∉ wheelW ∧ ((-3 : Int) < 0 ∨ (36 : Int) < (-3 : Int))) ∧
    getNeighbours 99 3 wheelW = [] ∧
    calculatePocketDistance 99 5 wheelW = none ∧
    getHitZone (-3) [] none false (fun _ => []) wheelW = [] := by
  have h99 : (99 : Int) ∉ wheelW := by decide
  have hlt : ((-3 : Int) < 0 ∨ (36 : Int) < (-3 : Int)) := Or.inl (by decide)
  exact ⟨⟨h99, hlt⟩,
    geometry_total_out_of_range.1 99 3 wheelW h99,
    geometry_total_out_of_range.2.1 99 5 wheelW (Or.inl h99),
    geometry_total_out_of_range.2.2 (-3) [] none false (fun _ => []) wheelW hlt⟩

/-- Counterexample for claim C6: with a duplicated id the claim fails as stated —
`[recB, recA, recC]` is a permutation of the weakly id-sorted
`[recA, recB, recC]`, yet the two fitness values differ (10 versus 1),
because the stable internal sort preserves the input order of the equal-id
records. -/
theorem calculateFitness_order_dependent_duplicate_ids :
    List.Perm [recB, recA, recC] [recA, recB, recC] ∧
    List.Pairwise (fun a b : HistoryRecord => a.id ≤ b.id) [recA, recB, recC] ∧
    calculateFitness envW indW trueFlag [recB, recA, recC] ≠
      calculateFitness envW indW trueFlag [recA, recB, recC] := by
  refine ⟨List.Perm.swap recA recB [recC], ?_, ?_⟩
  · decide
  · with_unfolding_all decide

/-- Claim C6, amended: When the record ids are pairwise distinct, the fitness
evaluation is invariant under any permutation of the input history — in
particular it agrees with the run on the pre-sorted array — because the
internal sort then produces the same list. -/
theorem calculateFitness_perm_invariant (env : SimEnv) (ind : Individual)
    (flag : Nat → Bool) (h₁ h₂ : List HistoryRecord) (hperm : List.Perm h₁ h₂)
    (hn : (h₁.map (fun r => r.id)).Nodup) :
    calculateFitness env ind flag h₁ = calculateFitness env ind flag h₂ := by
  unfold calculateFitness calculateFitnessFrom
  rw [sortHistory_eq_of_perm hperm hn]

/-- Witness for claim C6, amended: a concrete shuffle of the distinct-id history `histW`
evaluates to the same fitness. -/
theorem calculateFitness_perm_invariant_witness :
    (List.Perm histW histWShuffled ∧ (histW.map (fun r => r.id)).Nodup) ∧
    calculateFitness envW indW trueFlag histW =
      calculateFitness envW indW trueFlag histWShuffled := by
  have hp : List.Perm histW histWShuffled := by decide
  have hn : (histW.map (fun r => r.id)).Nodup := by decide
  exact ⟨⟨hp, hn⟩, calculateFitness_perm_invariant envW indW trueFlag histW histWShuffled hp hn⟩

/-- Claim C4, code bug: With the empty history, the all-zero random source
and a cancellation flag first observed `false` at the generation-2
loop-condition poll (poll index 98), the first worker revision emits only
the generation-1 progress event and terminates with neither `complete` nor
`stopped`; had the stop been observed one poll earlier (inside breeding,
poll 97), a single `stopped` event would have been emitted. -/
theorem runEvolution_missing_terminal_event :
    (runEvolution envW [] stopFlag98 zeroRng).filter isTerminalEvent = [] ∧
    (runEvolution envW [] stopFlag98 zeroRng).length = 1 ∧
    (runEvolution envW [] stopFlag97 zeroRng).filter isTerminalEvent =
      [WorkerEvent.stopped] := by
  refine ⟨?_, ?_, ?_⟩ <;> with_unfolding_all rfl

/-- Witness for claim C3: with the flag true at poll 0 and false at poll 1, the
two-record history `histC3` evaluates to fitness 0. -/
theorem calculateFitness_cancellation_spec_witness :
    (1 < (sortHistory histC3).length ∧ flagC3 0 = true ∧ flagC3 1 = false) ∧
    calculateFitness envW indW flagC3 histC3 = 0 :=
  ⟨⟨by decide, by decide, by decide⟩,
    (calculateFitness_cancellation_spec envW indW histC3 flagC3 1
      (by decide) (by decide) (by decide)).1⟩

end Legend
